import Mathlib

/-!
A shallow embedding of selected parts of the `rosa` command-line tool:
the hosted-cluster node-pool create/edit flows, the operator-role upgrade
reconciliation command, the generated machine-type SDK response accessors,
and the known-flag argument parser, together with theorems about them.

Conventions of the embedding:
* Go pointers are `Option`; a nil-pointer dereference is `Except.error ()`.
* `os.Exit(n)` is `Outcome.exited n`; returning an error from a cobra `RunE`
  is `Outcome.returnedError`.
* Calls to the outside world (OCM API, AWS API, the terminal prompter) are
  resolved through explicit environment records whose fields carry the results
  the calls would produce; every call that is made is recorded in an `Effect`
  trace, in program order.
* Go `int` is `Int`; Go strings are `String`.
-/

namespace Rosa

/-- Termination of a command: `os.Exit code`, an error returned to cobra
(which reports it and exits nonzero), or a normal `nil` return. -/
inductive Outcome where
  | exited (code : Nat)
  | returnedError (msg : String)
  | returnedOk
deriving DecidableEq, Repr

/-- `cmv1.NodePoolAutoscaling` as built by the builder: a field is `some`
exactly when the corresponding builder setter was invoked, and is omitted
from the update/create request otherwise. -/
structure NodePoolAutoscaling where
  minReplica : Option Int
  maxReplica : Option Int
deriving DecidableEq, Repr

/-- `cmv1.NodePool` as built by the builder (only the fields these flows set). -/
structure NodePool where
  id : Option String
  autoscaling : Option NodePoolAutoscaling
  replicas : Option Int
deriving DecidableEq, Repr

/-- Every observable call the embedded commands perform, in program order.
`reportInfo`/`reportWarn`/`reportError`/`reportDebug` are the reporter,
`printLine` is `fmt.Println`, `promptConfirm` is `confirm.Prompt`,
`displaySpinner` is `helper.DisplaySpinnerWithDelay`, `logEvent` is OCM
telemetry, `generatePolicyFiles` writes local files, and the `...Call`
constructors are the remote API calls. -/
inductive Effect where
  | reportDebug (msg : String)
  | reportInfo (msg : String)
  | reportWarn (msg : String)
  | reportError (msg : String)
  | printLine (msg : String)
  | promptConfirm (question : String)
  | displaySpinner (msg : String)
  | logEvent (name : String)
  | generatePolicyFiles
  | upgradeOperatorRolePoliciesCall (prefixName policyVersion : String)
  | ensureRoleCall (roleName : String)
  | attachRolePolicyCall (roleName policyARN : String)
  | buildNodePoolCall (np : NodePool)
  | createNodePoolCall (np : NodePool)
  | updateNodePoolCall (np : NodePool)
deriving DecidableEq, Repr

/-- The remote mutating calls of the embedding: role creation, policy
attachment, policy upgrade and node-pool create/update against the backend.
Reporter output, prompts, telemetry and local policy-file generation are not
remote mutations. -/
def Effect.isRemoteMutating : Effect → Bool
  | .upgradeOperatorRolePoliciesCall _ _ => true
  | .ensureRoleCall _ => true
  | .attachRolePolicyCall _ _ => true
  | .createNodePoolCall _ => true
  | .updateNodePoolCall _ => true
  | _ => false

/-- A trace with no remote mutating call. -/
def mutationFree (tr : List Effect) : Bool :=
  tr.all (fun e => !e.isRemoteMutating)

/-! ### The interactive prompter

Modelled from the spec: `pkg/interactive` is not under `src/`; the spec says
the prompter "collects missing parameters from a terminal when flags are
absent". A prompt answered at a terminal is resolved through the environment;
when interactive mode is disabled a prompt resolves to its `Default` value. -/

/-- Terminal state for prompts: whether interactive mode is enabled and what a
terminal user would answer each question. -/
structure PromptEnv where
  interactiveEnabled : Bool := false
  boolAnswer : String → Except String Bool := fun _ => Except.error "EOF"
  intAnswer : String → Except String Int := fun _ => Except.error "EOF"

/-- Modelled from the spec: `interactive.GetBool` (not under `src/`) returns the
terminal answer in interactive mode and the default otherwise. -/
def interactiveGetBool (p : PromptEnv) (question : String) (dflt : Bool) :
    Except String Bool :=
  if p.interactiveEnabled then p.boolAnswer question else Except.ok dflt

/-- Modelled from the spec: `interactive.GetInt` (not under `src/`) returns the
terminal answer in interactive mode and the default otherwise. -/
def interactiveGetInt (p : PromptEnv) (question : String) (dflt : Int) :
    Except String Int :=
  if p.interactiveEnabled then p.intAnswer question else Except.ok dflt

/-! ### Node-pool flag state -/

/-- Command-line flag state for the hosted-cluster node-pool commands. A field
is `some v` when the user set the flag (`cmd.Flags().Changed(...)` is true)
and `none` otherwise; the numeric flags are registered with default value `0`
and the autoscaling flag with default `false` (the flag registration lives
outside `src/`; modelled from the spec's flag list). The `...Changed` booleans
mirror `cmd.Flags().Changed` for flags whose value the flow never reads. -/
structure NodePoolFlags where
  multiAvailabilityZoneChanged : Bool := false
  availabilityZoneChanged : Bool := false
  subnetChanged : Bool := false
  nameChanged : Bool := false
  replicasFlag : Option Int := none
  minReplicasFlag : Option Int := none
  maxReplicasFlag : Option Int := none
  enableAutoscalingFlag : Option Bool := none

/-! ### Create flow: `addNodePool` -/

/-- Results of the external calls `addNodePool` makes after validation:
`buildError` is a failure of `npBuilder.Build()`, `createResult` is
`OCMClient.CreateNodePool` (returning the created pool's ID on success). -/
structure CreateNodePoolEnv where
  clusterKey : String := "mycluster"
  buildError : Option String := none
  createResult : Except String String := Except.ok "np-new"

/-- The tail of `addNodePool`: build the node pool and send the create request. -/
def finishAddNodePool (env : CreateNodePoolEnv) (np : NodePool) :
    Outcome × List Effect :=
  match env.buildError with
  | some e =>
      (.exited 1,
       [.buildNodePoolCall np,
        .reportError ("Failed to create machine pool for hosted cluster '" ++
          env.clusterKey ++ "': " ++ e)])
  | none =>
    match env.createResult with
    | .error e =>
        (.exited 1,
         [.buildNodePoolCall np, .createNodePoolCall np,
          .reportError ("Failed to add machine pool to hosted cluster '" ++
            env.clusterKey ++ "': " ++ e)])
    | .ok npID =>
        (.returnedOk,
         [.buildNodePoolCall np, .createNodePoolCall np,
          .reportInfo ("Machine pool '" ++ npID ++
            "' created successfully on hosted cluster '" ++ env.clusterKey ++ "'"),
          .reportInfo ("To view all machine pools, run 'rosa list machinepools -c " ++
            env.clusterKey ++ "'")])

/-- The replica/autoscaling part of `addNodePool` after the unsupported-flag
checks: prompt for autoscaling when allowed, reject `replicas` together with
autoscaling, reject min/max without autoscaling, fill in missing values
interactively, then build and create. -/
def addNodePoolReplicas (f : NodePoolFlags) (p : PromptEnv)
    (env : CreateNodePoolEnv) : Outcome × List Effect :=
  let isMinReplicasSet := f.minReplicasFlag.isSome
  let isMaxReplicasSet := f.maxReplicasFlag.isSome
  let isAutoscalingSet := f.enableAutoscalingFlag.isSome
  let isReplicasSet := f.replicasFlag.isSome
  let minReplicas := f.minReplicasFlag.getD 0
  let maxReplicas := f.maxReplicasFlag.getD 0
  let autoscaling := f.enableAutoscalingFlag.getD false
  let replicas := f.replicasFlag.getD 0
  let autoscalingStep : Except String Bool :=
    if !isReplicasSet && !autoscaling && !isAutoscalingSet && p.interactiveEnabled then
      interactiveGetBool p "Enable autoscaling" autoscaling
    else Except.ok autoscaling
  match autoscalingStep with
  | .error e =>
      (.exited 1, [.reportError ("Expected a valid value for enable-autoscaling: " ++ e)])
  | .ok autoscaling =>
    if autoscaling then
      if isReplicasSet then
        (.exited 1, [.reportError "Replicas can't be set when autoscaling is enabled"])
      else
        match (if p.interactiveEnabled || !isMinReplicasSet then
                 interactiveGetInt p "Min replicas" minReplicas
               else Except.ok minReplicas) with
        | .error e =>
            (.exited 1, [.reportError ("Expected a valid number of min replicas: " ++ e)])
        | .ok minReplicas =>
          match (if p.interactiveEnabled || !isMaxReplicasSet then
                   interactiveGetInt p "Max replicas" maxReplicas
                 else Except.ok maxReplicas) with
          | .error e =>
              (.exited 1, [.reportError ("Expected a valid number of max replicas: " ++ e)])
          | .ok maxReplicas =>
              finishAddNodePool env
                { id := none
                  autoscaling := some { minReplica := some minReplicas
                                        maxReplica := some maxReplicas }
                  replicas := none }
    else
      if isMinReplicasSet || isMaxReplicasSet then
        (.exited 1,
         [.reportError "Autoscaling must be enabled in order to set min and max replicas"])
      else
        match (if p.interactiveEnabled || !isReplicasSet then
                 interactiveGetInt p "Replicas" replicas
               else Except.ok replicas) with
        | .error e =>
            (.exited 1, [.reportError ("Expected a valid number of replicas: " ++ e)])
        | .ok replicas =>
            finishAddNodePool env
              { id := none, autoscaling := none, replicas := some replicas }

/-- `addNodePool` from the hosted-cluster create flow: reject the flags node
pools do not support yet, then run the replica/autoscaling logic. -/
def addNodePool (f : NodePoolFlags) (p : PromptEnv) (env : CreateNodePoolEnv) :
    Outcome × List Effect :=
  if f.multiAvailabilityZoneChanged then
    (.exited 1,
     [.reportError "Setting the `multi-availability-zone` flag is not yet supported for hosted clusters"])
  else if f.availabilityZoneChanged then
    (.exited 1,
     [.reportError "Setting the `availability-zone` flag is not yet supported for hosted clusters"])
  else if f.subnetChanged then
    (.exited 1,
     [.reportError "Setting the `subnet` flag is not yet supported for hosted clusters"])
  else if f.nameChanged then
    (.exited 1, [.reportError "Setting the `name` is not supported for hosted clusters"])
  else addNodePoolReplicas f p env

/-! ### Edit flow: `editNodePool` and `getNodePoolReplicas` -/

/-- The node pool fetched by `OCMClient.GetNodePool`: its ID, its fixed replica
count (`Replicas()`, zero when unset) and its autoscaling bounds
(`some (MinReplica(), MaxReplica())` when autoscaling is configured). -/
structure FetchedNodePool where
  id : String
  replicas : Int
  autoscaling : Option (Int × Int)
deriving DecidableEq, Repr

/-- Results of the external calls `editNodePool` makes. -/
structure EditNodePoolEnv where
  clusterKey : String := "mycluster"
  nodePoolID : String := "np-1"
  getNodePoolResult : Except String FetchedNodePool
  buildError : Option String := none
  updateError : Option String := none

/-- `getNodePoolReplicas` from the edit flow: decide between autoscaling and a
fixed replica count, filling unset values from prompts (whose defaults come
from the existing node pool). `Except.error` carries an early `os.Exit`. -/
def getNodePoolReplicas (f : NodePoolFlags) (p : PromptEnv) (nodePoolID : String)
    (existingReplicas : Int) (existingAutoscaling : Option (Int × Int)) :
    Except (Outcome × List Effect) (Bool × Int × Int × Int) :=
  let isMinReplicasSet := f.minReplicasFlag.isSome
  let isMaxReplicasSet := f.maxReplicasFlag.isSome
  let isReplicasSet := f.replicasFlag.isSome
  let isAutoscalingSet := f.enableAutoscalingFlag.isSome
  let replicas := f.replicasFlag.getD 0
  let minReplicas := f.minReplicasFlag.getD 0
  let maxReplicas := f.maxReplicasFlag.getD 0
  let autoscaling := f.enableAutoscalingFlag.getD false
  if (isMinReplicasSet || isMaxReplicasSet) && !autoscaling &&
      existingAutoscaling.isNone then
    Except.error (.exited 1,
      [.reportError ("Autoscaling is not enabled on machine pool '" ++ nodePoolID ++
        "'. can't set min or max replicas")])
  else
    match (if !isAutoscalingSet then
             (if p.interactiveEnabled then
                interactiveGetBool p "Enable autoscaling" existingAutoscaling.isSome
              else Except.ok existingAutoscaling.isSome)
           else Except.ok autoscaling) with
    | .error e =>
        Except.error (.exited 1,
          [.reportError ("Expected a valid value for enable-autoscaling: " ++ e)])
    | .ok autoscaling =>
      if autoscaling then
        match (if !isMinReplicasSet && (p.interactiveEnabled || !isMaxReplicasSet) then
                 interactiveGetInt p "Min replicas" ((existingAutoscaling.map Prod.fst).getD 0)
               else Except.ok minReplicas) with
        | .error e =>
            Except.error (.exited 1,
              [.reportError ("Expected a valid number of min replicas: " ++ e)])
        | .ok minReplicas =>
          match (if !isMaxReplicasSet && (p.interactiveEnabled || !isMinReplicasSet) then
                   interactiveGetInt p "Max replicas" ((existingAutoscaling.map Prod.snd).getD 0)
                 else Except.ok maxReplicas) with
          | .error e =>
              Except.error (.exited 1,
                [.reportError ("Expected a valid number of max replicas: " ++ e)])
          | .ok maxReplicas => Except.ok (true, replicas, minReplicas, maxReplicas)
      else
        match (if p.interactiveEnabled || !isReplicasSet then
                 interactiveGetInt p "Replicas"
                   (if !isReplicasSet then existingReplicas else replicas)
               else Except.ok replicas) with
        | .error e =>
            Except.error (.exited 1,
              [.reportError ("Expected a valid number of replicas: " ++ e)])
        | .ok replicas => Except.ok (false, replicas, minReplicas, maxReplicas)

/-- `editNodePool` from the hosted-cluster edit flow: fetch the pool, resolve
replicas/autoscaling, validate non-negativity, build the update (setting
`MinReplica`/`MaxReplica` only for positive values) and send it. -/
def editNodePool (f : NodePoolFlags) (p : PromptEnv) (env : EditNodePoolEnv) :
    Outcome × List Effect :=
  let loadDebug := Effect.reportDebug ("Loading machine pool for hosted cluster '" ++
    env.clusterKey ++ "'")
  match env.getNodePoolResult with
  | .error e =>
      (.exited 1,
       [loadDebug,
        .reportError ("Failed to get machine pools for hosted cluster '" ++
          env.clusterKey ++ "': " ++ e)])
  | .ok np =>
    match getNodePoolReplicas f p env.nodePoolID np.replicas np.autoscaling with
    | .error r => (r.1, loadDebug :: r.2)
    | .ok (autoscaling, replicas, minReplicas, maxReplicas) =>
      if (!autoscaling && replicas < 0) ||
          (autoscaling && f.minReplicasFlag.isSome && minReplicas < 0) then
        (.exited 1,
         [loadDebug,
          .reportError "The number of machine pool replicas needs to be a non-negative integer"])
      else
        let built : NodePool :=
          if autoscaling then
            { id := some np.id
              autoscaling := some
                { minReplica := if minReplicas > 0 then some minReplicas else none
                  maxReplica := if maxReplicas > 0 then some maxReplicas else none }
              replicas := none }
          else { id := some np.id, autoscaling := none, replicas := some replicas }
        match env.buildError with
        | some e =>
            (.exited 1,
             [loadDebug, .buildNodePoolCall built,
              .reportError ("Failed to create machine pool for hosted cluster '" ++
                env.clusterKey ++ "': " ++ e)])
        | none =>
          let updateDebug := Effect.reportDebug ("Updating machine pool '" ++ np.id ++
            "' on hosted cluster '" ++ env.clusterKey ++ "'")
          match env.updateError with
          | some e =>
              (.exited 1,
               [loadDebug, .buildNodePoolCall built, updateDebug,
                .updateNodePoolCall built,
                .reportError ("Failed to update machine pool '" ++ np.id ++
                  "' on hosted cluster '" ++ env.clusterKey ++ "': " ++ e)])
          | none =>
              (.returnedOk,
               [loadDebug, .buildNodePoolCall built, updateDebug,
                .updateNodePoolCall built,
                .reportInfo ("Updated machine pool '" ++ np.id ++
                  "' on hosted cluster '" ++ env.clusterKey ++ "'")])

/-! ### Generated SDK client: machine-type response accessors

`MachineTypeGetResponse` and `MachineTypePollResponse` from the generated
client. A Go pointer receiver is `Option`; calling a method whose body guards
with `if r == nil` is total, while reading a field of a nil receiver is a
nil-pointer dereference, modelled as `Except.error ()`. -/

/-- The `MachineType` body object (opaque to these accessors). -/
structure MachineType where
  id : String
deriving DecidableEq, Repr

/-- `errors.Error` from the SDK (opaque to these accessors). -/
structure OcmError where
  code : String
deriving DecidableEq, Repr

/-- `http.Header`: a nilable map, modelled as an optional association list. -/
abbrev HttpHeader := List (String × String)

/-- `MachineTypeGetResponse`: status, header, error and body as set by
`SendContext` (all but `status` may be nil). -/
structure MachineTypeGetResponse where
  status : Int
  header : Option HttpHeader
  err : Option OcmError
  body : Option MachineType
deriving DecidableEq, Repr

/-- `Status` on a `*MachineTypeGetResponse`: 0 on a nil receiver. -/
def MachineTypeGetResponse.Status : Option MachineTypeGetResponse → Int
  | none => 0
  | some r => r.status

/-- `Header` on a `*MachineTypeGetResponse`: nil on a nil receiver. -/
def MachineTypeGetResponse.Header : Option MachineTypeGetResponse → Option HttpHeader
  | none => none
  | some r => r.header

/-- `Error` on a `*MachineTypeGetResponse`: nil on a nil receiver. -/
def MachineTypeGetResponse.Error : Option MachineTypeGetResponse → Option OcmError
  | none => none
  | some r => r.err

/-- `Body` on a `*MachineTypeGetResponse`: nil on a nil receiver. -/
def MachineTypeGetResponse.Body : Option MachineTypeGetResponse → Option MachineType
  | none => none
  | some r => r.body

/-- `GetBody` on a `*MachineTypeGetResponse`: `ok` is true exactly when the
receiver and the body are both non-nil, and then `value` is the body. -/
def MachineTypeGetResponse.GetBody :
    Option MachineTypeGetResponse → Option MachineType × Bool
  | none => (none, false)
  | some r =>
    match r.body with
    | none => (none, false)
    | some b => (some b, true)

/-- `MachineTypePollResponse`: wraps the last get response (a nilable pointer). -/
structure MachineTypePollResponse where
  response : Option MachineTypeGetResponse
deriving DecidableEq, Repr

/-- `Status` on a `*MachineTypePollResponse`: guarded by a receiver nil check,
then delegates to the (nil-safe) inner accessor. -/
def MachineTypePollResponse.Status : Option MachineTypePollResponse → Int
  | none => 0
  | some p => MachineTypeGetResponse.Status p.response

/-- `Header` on a `*MachineTypePollResponse`: guarded by a receiver nil check. -/
def MachineTypePollResponse.Header :
    Option MachineTypePollResponse → Option HttpHeader
  | none => none
  | some p => MachineTypeGetResponse.Header p.response

/-- `Error` on a `*MachineTypePollResponse`: guarded by a receiver nil check. -/
def MachineTypePollResponse.Error :
    Option MachineTypePollResponse → Option OcmError
  | none => none
  | some p => MachineTypeGetResponse.Error p.response

/-- `Body` on a `*MachineTypePollResponse`: the Go body is
`return r.response.Body()` with no receiver nil check, so a nil receiver
dereferences nil (`Except.error ()`). -/
def MachineTypePollResponse.Body :
    Option MachineTypePollResponse → Except Unit (Option MachineType)
  | none => Except.error ()
  | some p => Except.ok (MachineTypeGetResponse.Body p.response)

/-- `GetBody` on a `*MachineTypePollResponse`: the Go body is
`return r.response.GetBody()` with no receiver nil check, so a nil receiver
dereferences nil (`Except.error ()`). -/
def MachineTypePollResponse.GetBody :
    Option MachineTypePollResponse → Except Unit (Option MachineType × Bool)
  | none => Except.error ()
  | some p => Except.ok (MachineTypeGetResponse.GetBody p.response)

/-! ### `pkg/arguments`: `ParseKnownFlags` -/

/-- A registered pflag: its name and the type name `flag.Value.Type()` reports
(`"bool"` for boolean flags). -/
structure PFlag where
  name : String
  typeName : String
deriving DecidableEq, Repr

/-- `flags.Lookup`. -/
def lookupFlag (flags : List PFlag) (n : String) : Option PFlag :=
  flags.find? (fun fl => fl.name == n)

/-- Go `strings.HasPrefix`, computed on the character list. -/
def strHasPrefix (s pre : String) : Bool := pre.data.isPrefixOf s.data

/-- Go `strings.Contains(s, "=")` for the one-character separator, computed on
the character list. -/
def strContains (s : String) (c : Char) : Bool := s.data.contains c

/-- Stripping a flag marker: drop the first `n` characters. -/
def strDrop (s : String) (n : Nat) : String := ⟨s.data.drop n⟩

/-- `strings.SplitN(s, "=", 2)[0]`: the characters before the first `=`. -/
def strTakeUntilEq (s : String) : String := ⟨s.data.takeWhile (fun c => c != '=')⟩

/-- The flag name `ParseKnownFlags` extracts from an argument that starts with
`-`: strip `--` or `-`, and cut at the first `=` when one is present. -/
def flagNameOf (arg : String) : String :=
  if strHasPrefix arg "--" then
    if strContains arg '=' then strTakeUntilEq (strDrop arg 2)
    else strDrop arg 2
  else
    if strContains arg '=' then strTakeUntilEq (strDrop arg 1)
    else strDrop arg 1

/-- An argument the scan loop classifies as an unknown flag: it starts with
`-` and its extracted name is not registered. -/
def isUnknownFlagArg (flags : List PFlag) (arg : String) : Bool :=
  strHasPrefix arg "-" && (lookupFlag flags (flagNameOf arg)).isNone

/-- State of the scan loop of `ParseKnownFlags`: the known arguments collected
so far, whether the next bare argument is the value of the previous known
non-bool flag, and the unknown flag names found so far (in order). -/
structure ScanState where
  validArgs : List String
  upcomingValue : Bool
  unknownFlags : List String
deriving DecidableEq, Repr

/-- One iteration of the scan loop of `ParseKnownFlags`, mirroring its switch:
long flag without `=`, long flag with `=`, short flag without `=`, short flag
with `=`, a pending value, or a skipped argument. -/
def scanArg (flags : List PFlag) (failOnUnknown : Bool) (st : ScanState)
    (arg : String) : ScanState :=
  if strHasPrefix arg "--" && !strContains arg '=' then
    let flagName := strDrop arg 2
    match lookupFlag flags flagName with
    | some fl =>
        { st with validArgs := st.validArgs ++ [arg]
                  upcomingValue := if fl.typeName ≠ "bool" then true else st.upcomingValue }
    | none =>
        if failOnUnknown then { st with unknownFlags := st.unknownFlags ++ [flagName] }
        else st
  else if strHasPrefix arg "--" && strContains arg '=' then
    let flagName := strTakeUntilEq (strDrop arg 2)
    let st2 :=
      if (lookupFlag flags flagName).isSome then
        { st with validArgs := st.validArgs ++ [arg] }
      else if failOnUnknown then { st with unknownFlags := st.unknownFlags ++ [flagName] }
      else st
    { st2 with upcomingValue := false }
  else if strHasPrefix arg "-" && !strContains arg '=' then
    let flagName := strDrop arg 1
    match lookupFlag flags flagName with
    | some fl =>
        { st with validArgs := st.validArgs ++ [arg]
                  upcomingValue := if fl.typeName ≠ "bool" then true else st.upcomingValue }
    | none =>
        if failOnUnknown then { st with unknownFlags := st.unknownFlags ++ [flagName] }
        else st
  else if strHasPrefix arg "-" && strContains arg '=' then
    let flagName := strTakeUntilEq (strDrop arg 1)
    let st2 :=
      if (lookupFlag flags flagName).isSome then
        { st with validArgs := st.validArgs ++ [arg] }
      else if failOnUnknown then { st with unknownFlags := st.unknownFlags ++ [flagName] }
      else st
    { st2 with upcomingValue := false }
  else if st.upcomingValue then
    { st with validArgs := st.validArgs ++ [arg], upcomingValue := false }
  else st

/-- The whole scan loop of `ParseKnownFlags` over the argument list. -/
def scanKnownArgs (flags : List PFlag) (failOnUnknown : Bool) (argv : List String) :
    ScanState :=
  argv.foldl (scanArg flags failOnUnknown)
    { validArgs := [], upcomingValue := false, unknownFlags := [] }

/-- Go `%q` on a plain flag name. -/
def quoteGo (s : String) : String := "\"" ++ s ++ "\""

/-- The message of the error `ParseKnownFlags` returns: each unknown name is
appended as `%q, ` and the trailing two characters are cut
(`unknownFlags[:len(unknownFlags)-2]`). -/
def unknownFlagsMessage (names : List String) : String :=
  "Unknown flags passed: " ++
    (((names.map (fun n => quoteGo n ++ ", ")).foldl (· ++ ·) "").dropRight 2)

/-- `ParseKnownFlags`: scan the arguments, fail on unknown flags when asked,
otherwise parse the collected known arguments (`flags.Parse`, an external
pflag call resolved by `parseFn`) and honour a help request. -/
def ParseKnownFlags (parseFn : List PFlag → List String → Except String (List PFlag))
    (helpRequested : List PFlag → Bool) (flags : List PFlag) (argv : List String)
    (failOnUnknown : Bool) : Except String (List PFlag) :=
  let st := scanKnownArgs flags failOnUnknown argv
  if failOnUnknown && !st.unknownFlags.isEmpty then
    Except.error (unknownFlagsMessage st.unknownFlags)
  else
    match parseFn flags st.validArgs with
    | .error e => Except.error e
    | .ok parsed =>
        if helpRequested parsed then Except.error "pflag: help requested"
        else Except.ok parsed

/-! ### Operator-role upgrade reconciliation (`rosa upgrade operator-roles`) -/

/-- `aws.ModeAuto`. -/
def ModeAuto : String := "auto"

/-- `aws.ModeManual`. -/
def ModeManual : String := "manual"

/-- `aws.Modes` as rendered into the invalid-mode message. -/
def ModesString : String := "[auto manual]"

/-- `cmv1.STSOperator`: an operator credential request (name, namespace and the
minimum OpenShift version that requires it). -/
structure STSOperator where
  name : String
  ns : String
  minVersion : String
deriving DecidableEq, Repr

/-- The cluster fields the upgrade command reads: ID, name, current version
raw ID, the installer role ARN (only echoed in one error message) and the
operator IAM roles associated with the cluster
(`cluster.AWS().STS().GetOperatorIAMRoles()`: `none` models `ok = false`). -/
structure Cluster where
  id : String
  name : String
  versionRawID : String
  roleARN : String
  operatorIAMRoles : Option (List String)
deriving DecidableEq, Repr

/-- Modelled from the spec: `roles.GetOperatorRoleName` (not under `src/`) —
operator roles are "cluster-specific operator IAM roles" identified by the
operator's namespace and name, so the role name is derived from the cluster
name and those two fields. -/
def GetOperatorRoleName (cluster : Cluster) (op : STSOperator) : String :=
  cluster.name ++ "-" ++ op.ns ++ "-" ++ op.name

/-- Lexicographic order on character lists, by code point. -/
def charListLE : List Char → List Char → Bool
  | [], _ => true
  | _ :: _, [] => false
  | a :: as, b :: bs =>
    if a.toNat < b.toNat then true
    else if b.toNat < a.toNat then false
    else charListLE as bs

/-- Modelled from the spec: the version order used to decide whether a
credential request's minimum version is within the target version. -/
def versionLE (a b : String) : Bool := charListLE a.data b.data

/-- Modelled from the spec: an operator credential request is required at the
target version when its minimum version is unset or not above the target. -/
def requiredAtVersion (op : STSOperator) (version : String) : Bool :=
  op.minVersion == "" || versionLE op.minVersion version

/-- Modelled from the spec: `OCMClient.FindMissingOperatorRolesForUpgrade`
(OCM client package, not under `src/`) determines the "roles missing relative
to the cluster's credential requests" at the target version — the
version-eligible credential requests whose operator role is not among the
operator roles associated with the cluster. -/
def FindMissingOperatorRolesForUpgrade (cluster : Cluster) (version : String)
    (credRequests : List STSOperator) : List STSOperator :=
  credRequests.filter (fun op =>
    requiredAtVersion op version &&
      !((cluster.operatorIAMRoles.getD []).contains (GetOperatorRoleName cluster op)))

/-- Modelled from the spec: `aws.GetOperatorPolicyARN` (not under `src/`) —
the ARN of the operator policy for the given account, prefix, namespace,
name and path. -/
def GetOperatorPolicyARN (accountID prefixName ns name path : String) : String :=
  "arn:aws:iam::" ++ accountID ++ ":policy" ++ path ++ prefixName ++ "-" ++ ns ++ "-" ++ name

/-- Results of every external call the `run` of `upgrade operator-roles` can
make, plus the flag and terminal state it starts from. Per-role call results
are functions of the role name. `existingRoles` is the set of IAM roles that
exist in the cloud account when the command starts; `EnsureRole` adds to it. -/
structure RunEnv where
  interactiveEnabledInit : Bool := false
  modeFlagChanged : Bool := true
  upgradeVersionFlag : String := ""
  clusterKey : String := "mycluster"
  cluster : Cluster := { id := "c1", name := "clu", versionRawID := "4.12.0",
                         roleARN := "arn:aws:iam::123:role/clu-Installer-Role",
                         operatorIAMRoles := some ["clu-openshift-existing"] }
  accountID : String := "123"
  modeResult : Except String String := Except.ok "auto"
  defaultPolicyVersionResult : Except String String := Except.ok "4.12"
  availableUpgradesResult : Except String (List String) := Except.ok []
  prefixResult : Except String String := Except.ok "ManagedOpenShift"
  pathResult : Except String String := Except.ok "/"
  accountRolesStaleResult : Except String Bool := Except.ok false
  credRequestsResult : Except String (List STSOperator) := Except.ok []
  operatorPolicyStaleResult : Except String Bool := Except.ok false
  findMissingError : Option String := none
  policiesResult : Except String Unit := Except.ok ()
  ocmEnvResult : Except String String := Except.ok "production"
  modePromptResult : Except String String := Except.ok "auto"
  confirmPolicyUpgrade : Bool := true
  upgradePoliciesError : Option String := none
  generatePolicyFilesError : Option String := none
  operatorRoleCommands : String := "aws iam create-policy-version ..."
  missingRoleCommandsResult : Except String String := Except.ok "aws iam create-role ..."
  isTerminal : Bool := true
  confirmCreateRole : String → Bool := fun _ => true
  existingRoles : List String := []
  checkRoleExistsError : String → Option String := fun _ => none
  policyDocError : String → Option String := fun _ => none
  ensureRoleError : String → Option String := fun _ => none
  ensureRoleArn : String → String := fun n => "arn:aws:iam::123:role/" ++ n
  attachRolePolicyError : String → Option String := fun _ => none

/-- How a helper called by `run` ends: `os.Exit(1)` from inside, an error
returned to `run`, or a normal return. -/
inductive CallOutcome where
  | exitedOne
  | failed (msg : String)
  | ok
deriving DecidableEq, Repr

/-- `upgradeOperatorPolicies`: in automatic mode confirm and upgrade the
operator role policies in place; in manual mode generate local policy files
and print the upgrade commands; otherwise report an invalid mode. -/
def upgradeOperatorPolicies (mode : String) (env : RunEnv) (prefixName : String)
    (isAccountRoleUpgradeNeed : Bool) (defaultPolicyVersion : String) :
    CallOutcome × List Effect :=
  if mode = ModeAuto then
    let q := "Upgrade the operator role policy to version " ++ defaultPolicyVersion ++ "?"
    if !env.confirmPolicyUpgrade then (.ok, [.promptConfirm q])
    else
      match env.upgradePoliciesError with
      | some e =>
          let throttled := (e.splitOn "Throttling").length > 1
          (.failed ("Error upgrading the operator policies: " ++ e),
           [.promptConfirm q,
            .upgradeOperatorRolePoliciesCall prefixName defaultPolicyVersion] ++
           (if throttled then [Effect.logEvent "ROSAUpgradeOperatorRolesModeAuto"] else []) ++
           [.reportError ("Error upgrading the operator policies: " ++ e)])
      | none =>
          (.ok, [.promptConfirm q,
                 .upgradeOperatorRolePoliciesCall prefixName defaultPolicyVersion])
  else if mode = ModeManual then
    match env.generatePolicyFilesError with
    | some e =>
        (.exitedOne,
         [.generatePolicyFiles,
          .reportError ("There was an error generating the policy files: " ++ e)])
    | none =>
        (.ok,
         [Effect.generatePolicyFiles] ++
         (if env.isTerminal then
            [Effect.reportInfo "All policy files saved to the current directory",
             Effect.reportInfo "Run the following commands to upgrade the operator IAM policies:\n"] ++
            (if isAccountRoleUpgradeNeed then
               [Effect.reportWarn "Operator role policies MUST only be upgraded after Account Role policies upgrade has completed.\n"]
             else [])
          else []) ++
         [Effect.printLine env.operatorRoleCommands])
  else
    (.failed ("Invalid mode. Allowed values are " ++ ModesString),
     [.reportError ("Invalid mode. Allowed values are " ++ ModesString)])

/-- The per-role confirmation question of `upgradeMissingOperatorRole`. -/
def roleCreateQuestion (roleName : String) : String :=
  "Create the '" ++ roleName ++ "' role?"

/-- `EnsureRole` adds the role to the set of existing roles (a no-op when it
already exists). -/
def addRoleName (state : List String) (roleName : String) : List String :=
  if state.contains roleName then state else state ++ [roleName]

/-- `upgradeMissingOperatorRole`: iterate over the missing roles; for each,
prompt, generate the policy document, `EnsureRole` it (adding it to the set of
existing roles) and attach its policy. An error aborts the iteration and is
returned; `Except.ok` carries the updated set of existing roles. -/
def upgradeMissingOperatorRole (env : RunEnv) (cluster : Cluster)
    (prefixName unifiedPath : String) :
    List STSOperator → List String → Except String (List String) × List Effect
  | [], state => (Except.ok state, [])
  | op :: rest, state =>
    let roleName := GetOperatorRoleName cluster op
    let q := roleCreateQuestion roleName
    if !env.confirmCreateRole roleName then
      let r := upgradeMissingOperatorRole env cluster prefixName unifiedPath rest state
      (r.1, Effect.promptConfirm q :: r.2)
    else
      let policyARN := GetOperatorPolicyARN env.accountID prefixName op.ns op.name unifiedPath
      match env.policyDocError roleName with
      | some e => (Except.error e, [.promptConfirm q])
      | none =>
        let creating := Effect.reportDebug ("Creating role '" ++ roleName ++ "'")
        match env.ensureRoleError roleName with
        | some e => (Except.error e, [.promptConfirm q, creating, .ensureRoleCall roleName])
        | none =>
          let state2 := addRoleName state roleName
          let created := Effect.reportInfo ("Created role '" ++ roleName ++
            "' with ARN '" ++ env.ensureRoleArn roleName ++ "'")
          let attaching := Effect.reportDebug ("Attaching permission policy '" ++
            policyARN ++ "' to role '" ++ roleName ++ "'")
          match env.attachRolePolicyError roleName with
          | some e =>
              (Except.error ("Failed to attach role policy. Check your prefix or run 'rosa create account-roles' to create the necessary policies: " ++ e),
               [.promptConfirm q, creating, .ensureRoleCall roleName, created,
                attaching, .attachRolePolicyCall roleName policyARN])
          | none =>
              let r := upgradeMissingOperatorRole env cluster prefixName unifiedPath rest state2
              (r.1,
               [Effect.promptConfirm q, creating, Effect.ensureRoleCall roleName,
                created, attaching, Effect.attachRolePolicyCall roleName policyARN] ++ r.2)

/-- Result of `createOperatorRole`: a normal return (with the updated set of
existing roles), an error returned to the caller, or `os.Exit(1)` from the
invalid-mode branch. -/
inductive CreateCallResult where
  | ok (state : List String)
  | failed (msg : String)
  | exitedOne
deriving DecidableEq, Repr

/-- `createOperatorRole`: in automatic mode run `upgradeMissingOperatorRole`
over the whole missing-role set and wait for reconciliation; in manual mode
build and print the role-creation commands; otherwise report an invalid mode
and exit. -/
def createOperatorRole (mode : String) (env : RunEnv) (cluster : Cluster)
    (prefixName : String) (missingRoles : List STSOperator) (unifiedPath : String)
    (state : List String) : CreateCallResult × List Effect :=
  if mode = ModeAuto then
    match upgradeMissingOperatorRole env cluster prefixName unifiedPath missingRoles state with
    | (Except.ok state2, tr) =>
        (.ok state2, tr ++ [.displaySpinner "Waiting for operator roles to reconcile"])
    | (Except.error e, tr) => (.failed e, tr)
  else if mode = ModeManual then
    match env.missingRoleCommandsResult with
    | .error e => (.failed e, [])
    | .ok commands =>
        (.ok state,
         (if env.isTerminal then
            [Effect.reportInfo "Run the following commands to create the operator roles:\n"]
          else []) ++ [Effect.printLine commands])
  else
    (.exitedOne, [.reportError ("Invalid mode. Allowed values are " ++ ModesString)])

/-- How the missing-role loop of `run` ends: normally (with the count of
iterations that created roles and the final set of existing roles), with an
error returned from `run`, or with `os.Exit(1)`. -/
inductive LoopResult where
  | done (created : Nat) (state : List String)
  | returnedErr (msg : String)
  | exitedOne
deriving DecidableEq, Repr

/-- The missing-role loop of `run` (lines 215-237): for each role of
`missingRoles`, check whether it already exists; when it does not, call
`createOperatorRole` with the whole missing-role set and count the iteration.
A `CheckRoleExists` error is returned from `run`; a creation error exits 1. -/
def missingRolesLoop (mode : String) (env : RunEnv) (cluster : Cluster)
    (prefixName unifiedPath : String) (missingRoles : List STSOperator) :
    List STSOperator → List String → Nat → LoopResult × List Effect
  | [], state, created => (.done created state, [])
  | op :: rest, state, created =>
    let roleName := GetOperatorRoleName cluster op
    match env.checkRoleExistsError roleName with
    | some e =>
        (.returnedErr ("Error when detecting checking missing operator IAM roles " ++ e),
         [.reportError ("Error when detecting checking missing operator IAM roles " ++ e)])
    | none =>
      if !state.contains roleName then
        match createOperatorRole mode env cluster prefixName missingRoles unifiedPath state with
        | (.ok state2, tr) =>
            let r := missingRolesLoop mode env cluster prefixName unifiedPath
              missingRoles rest state2 (created + 1)
            (r.1, tr ++ r.2)
        | (.failed e, tr) => (.exitedOne, tr ++ [.reportError e])
        | (.exitedOne, tr) => (.exitedOne, tr)
      else
        missingRolesLoop mode env cluster prefixName unifiedPath missingRoles rest state created

/-- Tail of `run` after mode selection: the missing-role phase, plus the
already-created notice when no iteration created anything. -/
def runLoopPhase (env : RunEnv) (mode : String) (cluster : Cluster)
    (prefixName unifiedPath : String) (missing : List STSOperator) :
    Outcome × List Effect :=
  if missing.isEmpty then (.returnedOk, [])
  else
    match missingRolesLoop mode env cluster prefixName unifiedPath missing missing
        env.existingRoles 0 with
    | (.done created _, tr) =>
        if created = 0 then
          (.returnedOk,
           tr ++ [.reportInfo "Missing roles/policies have already been created. Please continue with cluster upgrade process."])
        else (.returnedOk, tr)
    | (.returnedErr e, tr) => (.returnedError e, tr)
    | (.exitedOne, tr) => (.exited 1, tr)

/-- `run` after mode selection: upgrade stale operator policies first (an error
is reported and exits 1), then handle missing roles. The account-role-stale
flag is always false here, since `run` exits earlier when it is set. -/
def runPolicyPhase (env : RunEnv) (mode : String) (cluster : Cluster)
    (prefixName unifiedPath : String) (policyStale : Bool)
    (defaultPolicyVersion : String) (missing : List STSOperator) :
    Outcome × List Effect :=
  if policyStale then
    match upgradeOperatorPolicies mode env prefixName false defaultPolicyVersion with
    | (.ok, tr) =>
        let r := runLoopPhase env mode cluster prefixName unifiedPath missing
        (r.1, tr ++ r.2)
    | (.failed e, tr) => (.exited 1, tr ++ [.reportError e])
    | (.exitedOne, tr) => (.exited 1, tr)
  else runLoopPhase env mode cluster prefixName unifiedPath missing

/-- Whether interactive mode is on when the mode prompt is reached: `run`
enables it when it was off and the `mode` flag was not set. -/
def interactiveAtModeSelection (env : RunEnv) : Bool :=
  env.interactiveEnabledInit || !env.modeFlagChanged

/-- `run` from the policies fetch through `handleModeFlag`: fetch the operator
policies and the OCM environment, then resolve the mode (prompting when
interactive) and continue. -/
def runModeSelectPhase (env : RunEnv) (mode0 : String) (cluster : Cluster)
    (prefixName unifiedPath : String) (policyStale : Bool)
    (defaultPolicyVersion : String) (missing : List STSOperator) :
    Outcome × List Effect :=
  match env.policiesResult with
  | .error e => (.exited 1, [.reportError ("Expected a valid role creation mode: " ++ e)])
  | .ok _ =>
    match env.ocmEnvResult with
    | .error e => (.exited 1, [.reportError ("Failed to determine OCM environment: " ++ e)])
    | .ok _ =>
      if interactiveAtModeSelection env then
        match env.modePromptResult with
        | .error e =>
            (.exited 1,
             [.reportError ("Expected a valid operator IAM role upgrade mode: " ++ e)])
        | .ok mode =>
            runPolicyPhase env mode cluster prefixName unifiedPath policyStale
              defaultPolicyVersion missing
      else
        runPolicyPhase env mode0 cluster prefixName unifiedPath policyStale
          defaultPolicyVersion missing

/-- `run` from the target-version resolution through the up-to-date check:
find the missing roles and return early when nothing needs work. -/
def runDetectPhase (env : RunEnv) (mode0 : String) (cluster : Cluster)
    (prefixName unifiedPath : String) (credRequests : List STSOperator)
    (policyStale : Bool) (defaultPolicyVersion : String) : Outcome × List Effect :=
  let version := if env.upgradeVersionFlag = "" then cluster.versionRawID
                 else env.upgradeVersionFlag
  match env.findMissingError with
  | some e => (.returnedError e, [])
  | none =>
    let missing := FindMissingOperatorRolesForUpgrade cluster version credRequests
    if missing.isEmpty && !policyStale then
      (.returnedOk,
       [.reportInfo ("Operator roles associated with the cluster '" ++ cluster.id ++
         "' are already up-to-date.")])
    else
      let r := runModeSelectPhase env mode0 cluster prefixName unifiedPath policyStale
        defaultPolicyVersion missing
      (r.1, Effect.reportInfo "Starting to upgrade the operator IAM roles and policies" :: r.2)

/-- `run` from the credential-request fetch through the operator-policy
staleness check. -/
def runCredPhase (env : RunEnv) (mode0 : String) (cluster : Cluster)
    (prefixName unifiedPath : String) (defaultPolicyVersion : String) :
    Outcome × List Effect :=
  match env.credRequestsResult with
  | .error e =>
      (.exited 1, [.reportError ("Error getting operator credential request from OCM " ++ e)])
  | .ok credRequests =>
    match env.operatorPolicyStaleResult with
    | .error e => (.exited 1, [.reportError e])
    | .ok policyStale =>
        runDetectPhase env mode0 cluster prefixName unifiedPath credRequests policyStale
          defaultPolicyVersion

/-- The remediation notice printed when the installer account roles are stale. -/
def accountRolesRemediationMsg (prefixName : String) : String :=
  "Account roles with prefix '" ++ prefixName ++
    "' need to be upgraded before operator roles. Roles can be upgraded with the following command :\n\n\trosa upgrade account-roles --prefix " ++
    prefixName ++ "\n"

/-- `run` at the account-role staleness gate (lines 135-150): when the
installer account-role policies are stale, print the remediation command and
exit 1 before anything else happens. -/
def runAccountPhase (env : RunEnv) (mode0 : String) (cluster : Cluster)
    (prefixName unifiedPath : String) (defaultPolicyVersion : String) :
    Outcome × List Effect :=
  match env.accountRolesStaleResult with
  | .error e => (.exited 1, [.reportError e])
  | .ok true => (.exited 1, [.reportInfo (accountRolesRemediationMsg prefixName)])
  | .ok false => runCredPhase env mode0 cluster prefixName unifiedPath defaultPolicyVersion

/-- The prefix `run` continues with: the derived account-role prefix, or the
zero value when the derivation failed (the error is only reported). -/
def effectivePrefix (env : RunEnv) : String :=
  match env.prefixResult with
  | .ok p => p
  | .error _ => ""

/-- `run` at the operator-roles and prefix checks (lines 118-133): a cluster
with no operator roles and a failed prefix derivation are each only reported
(no exit), then the path lookup may exit 1. -/
def runRolesPhase (env : RunEnv) (mode0 : String) (defaultPolicyVersion : String) :
    Outcome × List Effect :=
  let rolesTrace :=
    if env.cluster.operatorIAMRoles.isNone ||
        (env.cluster.operatorIAMRoles.getD []).isEmpty then
      [Effect.reportError ("Cluster '" ++ env.clusterKey ++
        "' doesnt have any operator roles associated with it")]
    else []
  let prefixTrace :=
    match env.prefixResult with
    | .ok _ => []
    | .error _ =>
        [Effect.reportError ("Error getting account role prefix for the cluster '" ++
          env.clusterKey ++ "'")]
  match env.pathResult with
  | .error e =>
      (.exited 1,
       rolesTrace ++ prefixTrace ++
         [.reportError ("Expected a valid path for '" ++ env.cluster.roleARN ++ "': " ++ e)])
  | .ok unifiedPath =>
      let r := runAccountPhase env mode0 env.cluster (effectivePrefix env) unifiedPath
        defaultPolicyVersion
      (r.1, rolesTrace ++ prefixTrace ++ r.2)

/-- `run` at the explicit-version check (lines 93-116): when `--version` was
given, validate it against the available upgrades. -/
def runVersionPhase (env : RunEnv) (mode0 : String) (defaultPolicyVersion : String) :
    Outcome × List Effect :=
  if env.upgradeVersionFlag ≠ "" then
    match env.availableUpgradesResult with
    | .error e => (.exited 1, [.reportError ("Failed to find available upgrades: " ++ e)])
    | .ok ups =>
        if ups.isEmpty then (.exited 0, [.reportWarn "There are no available upgrades"])
        else if ups.contains env.upgradeVersionFlag then
          runRolesPhase env mode0 defaultPolicyVersion
        else (.exited 1, [.reportError "Expected a valid version to upgrade the cluster"])
  else runRolesPhase env mode0 defaultPolicyVersion

/-- `run` of `rosa upgrade operator-roles`: resolve the mode flag and the
default policy version, then walk the phases above in program order. -/
def run (env : RunEnv) : Outcome × List Effect :=
  match env.modeResult with
  | .error e => (.exited 1, [.reportError e])
  | .ok mode0 =>
    match env.defaultPolicyVersionResult with
    | .error e => (.exited 1, [.reportError ("Error getting latest default version: " ++ e)])
    | .ok defaultPolicyVersion => runVersionPhase env mode0 defaultPolicyVersion

/-- The combined missing-role detection of the upgrade flow: the roles
`FindMissingOperatorRolesForUpgrade` reports, filtered by the per-role
existence check at the top of the upgrade loop. -/
def detectTriggeredRoles (cluster : Cluster) (version : String)
    (credRequests : List STSOperator) (existingRoles : List String) :
    List STSOperator :=
  (FindMissingOperatorRolesForUpgrade cluster version credRequests).filter
    (fun op => !(existingRoles.contains (GetOperatorRoleName cluster op)))

/-- The mode the command ends up acting in is manual: the prompt answers
manual when the mode prompt is reached, and otherwise the `mode` flag said
manual. -/
def selectsManual (env : RunEnv) : Prop :=
  if interactiveAtModeSelection env then env.modePromptResult = Except.ok ModeManual
  else env.modeResult = Except.ok ModeManual

/-- The mode `runModeSelectPhase` resolves, given the flag mode it was handed,
is manual. -/
def modeResolvesManual (env : RunEnv) (mode0 : String) : Prop :=
  if interactiveAtModeSelection env then env.modePromptResult = Except.ok ModeManual
  else mode0 = ModeManual

/-- The effects of one accepted, fully successful iteration of
`upgradeMissingOperatorRole` for one operator. -/
def okSegment (env : RunEnv) (cluster : Cluster) (prefixName unifiedPath : String)
    (op : STSOperator) : List Effect :=
  [Effect.promptConfirm (roleCreateQuestion (GetOperatorRoleName cluster op)),
   Effect.reportDebug ("Creating role '" ++ GetOperatorRoleName cluster op ++ "'"),
   Effect.ensureRoleCall (GetOperatorRoleName cluster op),
   Effect.reportInfo ("Created role '" ++ GetOperatorRoleName cluster op ++
     "' with ARN '" ++ env.ensureRoleArn (GetOperatorRoleName cluster op) ++ "'"),
   Effect.reportDebug ("Attaching permission policy '" ++
     GetOperatorPolicyARN env.accountID prefixName op.ns op.name unifiedPath ++
     "' to role '" ++ GetOperatorRoleName cluster op ++ "'"),
   Effect.attachRolePolicyCall (GetOperatorRoleName cluster op)
     (GetOperatorPolicyARN env.accountID prefixName op.ns op.name unifiedPath)]

/-- The effects of fully successful iterations over a whole operator list. -/
def okSegments (env : RunEnv) (cluster : Cluster) (prefixName unifiedPath : String) :
    List STSOperator → List Effect
  | [] => []
  | op :: rest =>
      okSegment env cluster prefixName unifiedPath op ++
        okSegments env cluster prefixName unifiedPath rest

/-- The set of existing roles after `EnsureRole` has run over a whole operator
list. -/
def addRoleNames (cluster : Cluster) : List STSOperator → List String → List String
  | [], state => state
  | op :: rest, state =>
      addRoleNames cluster rest (addRoleName state (GetOperatorRoleName cluster op))

/-- The effects that make up one creation sequence for the role named `n`: its
confirmation prompt and its `EnsureRole` call. -/
def promptOrEnsure (n : String) : Effect → Bool
  | Effect.promptConfirm q => q == roleCreateQuestion n
  | Effect.ensureRoleCall m => m == n
  | _ => false

/-! ### Concrete inputs used to settle the claims -/

/-- C2: a non-interactive terminal. -/
def c2PromptOff : PromptEnv := {}

/-- C2: `--replicas 5 --enable-autoscaling` on the edit flow. -/
def c2EditFlags : NodePoolFlags := { replicasFlag := some 5, enableAutoscalingFlag := some true }

/-- C2: an autoscaling node pool with bounds 1..3 fetched from the backend. -/
def c2EditEnv : EditNodePoolEnv :=
  { getNodePoolResult := Except.ok { id := "np-1", replicas := 2, autoscaling := some (1, 3) } }

/-- C2: the update the edit flow sends for `c2EditFlags`. -/
def c2SentNodePool : NodePool :=
  { id := some "np-1"
    autoscaling := some { minReplica := some 1, maxReplica := some 3 }
    replicas := none }

/-- C3: `--enable-autoscaling --min-replicas 5 --max-replicas 2` on the create
flow, non-interactively. -/
def c3Flags : NodePoolFlags :=
  { minReplicasFlag := some 5, maxReplicasFlag := some 2, enableAutoscalingFlag := some true }

/-- C3: a non-interactive terminal. -/
def c3PromptOff : PromptEnv := {}

/-- C3: a backend that accepts the create request. -/
def c3CreateEnv : CreateNodePoolEnv := {}

/-- C3: the node pool the create flow builds and sends, with min 5 above max 2. -/
def c3NodePool : NodePool :=
  { id := none
    autoscaling := some { minReplica := some 5, maxReplica := some 2 }
    replicas := none }

/-- C4: a cluster whose spec lists the ingress operator role. -/
def c4Cluster : Cluster :=
  { id := "c1", name := "clu", versionRawID := "4.12.0", roleARN := ""
    operatorIAMRoles := some ["clu-openshift-ingress"] }

/-- C4: two credential requests, one already associated with the cluster. -/
def c4Ops : List STSOperator :=
  [{ name := "ingress", ns := "openshift", minVersion := "" },
   { name := "image-registry", ns := "openshift", minVersion := "4.12.0" }]

/-- C4: the roles existing in the cloud account. -/
def c4Existing : List String := ["clu-openshift-ingress"]

/-- C4: the credential request whose role is genuinely missing. -/
def c4OpNew : STSOperator := { name := "image-registry", ns := "openshift", minVersion := "4.12.0" }

/-- C5: a run whose installer account-role policies are stale. -/
def c5Env : RunEnv := { accountRolesStaleResult := Except.ok true }

/-- C6: a cluster with no operator roles associated; every other step succeeds
and there is nothing to upgrade. -/
def c6Env : RunEnv :=
  { cluster := { id := "c1", name := "clu", versionRawID := "4.12.0", roleARN := ""
                 operatorIAMRoles := some [] } }

/-- C7: two missing operator roles. -/
def c7Ops : List STSOperator :=
  [{ name := "a", ns := "openshift", minVersion := "" },
   { name := "d", ns := "openshift", minVersion := "" }]

/-- C7: the cluster the missing roles belong to. -/
def c7Cluster : Cluster :=
  { id := "c1", name := "clu", versionRawID := "4.12.0", roleARN := ""
    operatorIAMRoles := some ["x"] }

/-- C7: an automatic-mode run whose user accepts the prompt for role
`clu-openshift-a` and declines the prompt for role `clu-openshift-d`. -/
def c7Env : RunEnv := { confirmCreateRole := fun n => n == "clu-openshift-a" }

/-- C7 witness: one missing operator role. -/
def c7wOps : List STSOperator := [{ name := "b", ns := "openshift", minVersion := "" }]

/-- C7 witness: an automatic-mode run that accepts every prompt and in which
every per-role call succeeds. -/
def c7wEnv : RunEnv := {}

/-- C1 witness: manual mode selected by flag, with stale operator policies and
a missing role, so both manual branches run. -/
def c1Env : RunEnv :=
  { modeResult := Except.ok "manual"
    operatorPolicyStaleResult := Except.ok true
    credRequestsResult := Except.ok [{ name := "a", ns := "openshift", minVersion := "" }] }

/-- C8 witness: `--min-replicas 3` only, non-interactively. -/
def c8Flags : NodePoolFlags := { minReplicasFlag := some 3 }

/-- C8 witness: a non-interactive terminal. -/
def c8PromptOff : PromptEnv := {}

/-- C8 witness: an autoscaling node pool with bounds 1..4 fetched from the
backend. -/
def c8EditEnv : EditNodePoolEnv :=
  { getNodePoolResult := Except.ok { id := "np-1", replicas := 2, autoscaling := some (1, 4) } }

/-- C10 witness: one registered non-bool flag. -/
def c10Flags : List PFlag := [{ name := "replicas", typeName := "int" }]

/-- C10 witness: an argument list with the unknown flag `--bogus`. -/
def c10Argv : List String := ["--bogus", "x", "--replicas", "3"]

/-! ## Theorems -/

/-- C9 counterexample: on a nil `MachineTypePollResponse` receiver, `GetBody`
and `Body` read the `response` field of nil and dereference a nil pointer
instead of returning `ok = false`; they are not total on nil receivers. -/
theorem c9_poll_nil_receiver_panics :
    MachineTypePollResponse.GetBody none = Except.error () ∧
    MachineTypePollResponse.Body none = Except.error () :=
  ⟨rfl, rfl⟩

/-- C9 (amended): every accessor on a nil `MachineTypeGetResponse` receiver is
total (`Status` 0, `Header`/`Error`/`Body` nil, `GetBody` with `ok = false`
exactly when the receiver or the body is nil); on `MachineTypePollResponse`,
`Status`, `Header` and `Error` are nil-safe, while `Body` and `GetBody`
dereference a nil receiver and are only safe on non-nil receivers, where they
delegate to the nil-safe inner accessors. -/
theorem c9_accessor_nil_safety :
    (MachineTypeGetResponse.Status none = 0 ∧
     MachineTypeGetResponse.Header none = none ∧
     MachineTypeGetResponse.Error none = none ∧
     MachineTypeGetResponse.Body none = none ∧
     MachineTypeGetResponse.GetBody none = (none, false)) ∧
    (∀ x : MachineTypeGetResponse,
       MachineTypeGetResponse.GetBody (some x) = (x.body, x.body.isSome)) ∧
    (MachineTypePollResponse.Status none = 0 ∧
     MachineTypePollResponse.Header none = none ∧
     MachineTypePollResponse.Error none = none) ∧
    (∀ p : MachineTypePollResponse,
       MachineTypePollResponse.Body (some p) =
         Except.ok (MachineTypeGetResponse.Body p.response) ∧
       MachineTypePollResponse.GetBody (some p) =
         Except.ok (MachineTypeGetResponse.GetBody p.response)) := by
  refine ⟨⟨rfl, rfl, rfl, rfl, rfl⟩, ?_, ⟨rfl, rfl, rfl⟩, fun p => ⟨rfl, rfl⟩⟩
  intro x
  cases h : x.body <;> simp [MachineTypeGetResponse.GetBody, h]

/-- C3: with `--enable-autoscaling --min-replicas 5 --max-replicas 2` set
non-interactively, the create flow performs no min/max validation: it builds
the node pool with min 5 above max 2, sends the create request and returns
normally, instead of rejecting the input with exit code 1. -/
theorem c3_min_above_max_not_rejected :
    addNodePool c3Flags c3PromptOff c3CreateEnv =
      (Outcome.returnedOk,
       [Effect.buildNodePoolCall c3NodePool, Effect.createNodePoolCall c3NodePool,
        Effect.reportInfo "Machine pool 'np-new' created successfully on hosted cluster 'mycluster'",
        Effect.reportInfo "To view all machine pools, run 'rosa list machinepools -c mycluster'"]) := by
  rfl

/-- C6: on a cluster with no operator roles associated, `run` reports the
error but is missing the `os.Exit(1)` every other error path has: it keeps
executing and, with nothing else to do, returns normally (exit code 0). -/
theorem c6_no_operator_roles_continues :
    (run c6Env).1 = Outcome.returnedOk ∧
    Effect.reportError "Cluster 'mycluster' doesnt have any operator roles associated with it"
      ∈ (run c6Env).2 := by
  constructor
  · rfl
  · decide

/-- C2 counterexample: on the edit flow with `--replicas 5` and
`--enable-autoscaling` both set, non-interactively, on an autoscaling node
pool, no rejection happens: the command proceeds, ignores the replicas value
and sends the autoscaling update, returning normally instead of exiting 1. -/
theorem c2_edit_both_flags_not_rejected :
    (editNodePool c2EditFlags c2PromptOff c2EditEnv).1 = Outcome.returnedOk ∧
    Effect.updateNodePoolCall c2SentNodePool ∈ (editNodePool c2EditFlags c2PromptOff c2EditEnv).2 := by
  constructor
  · rfl
  · decide

/-- C2 (amended): on the create flow, when the replicas flag is explicitly set
and autoscaling is enabled by flag, the command is rejected with an error and
exit code 1 before any build or create call (the trace holds only the error
report); the edit flow performs no analogous rejection. -/
theorem c2_create_replicas_with_autoscaling_rejected
    (f : NodePoolFlags) (p : PromptEnv) (env : CreateNodePoolEnv)
    (h1 : f.multiAvailabilityZoneChanged = false)
    (h2 : f.availabilityZoneChanged = false)
    (h3 : f.subnetChanged = false)
    (h4 : f.nameChanged = false)
    (h5 : f.replicasFlag.isSome = true)
    (h6 : f.enableAutoscalingFlag.getD false = true) :
    addNodePool f p env =
      (Outcome.exited 1,
       [Effect.reportError "Replicas can't be set when autoscaling is enabled"]) := by
  simp [addNodePool, addNodePoolReplicas, h1, h2, h3, h4, h5, h6]

/-- C2 witness: the rejection at `--replicas 5 --enable-autoscaling`. -/
theorem c2_create_witness :
    addNodePool { replicasFlag := some 5, enableAutoscalingFlag := some true }
        ({} : PromptEnv) ({} : CreateNodePoolEnv) =
      (Outcome.exited 1,
       [Effect.reportError "Replicas can't be set when autoscaling is enabled"]) :=
  c2_create_replicas_with_autoscaling_rejected _ _ _ rfl rfl rfl rfl rfl rfl

/-- C8: on a non-interactive edit of an autoscaling node pool, a bound whose
flag was not set is omitted from the update request the flow sends: with only
`min-replicas` set (to a positive value) the built autoscaling block carries
`maxReplica = none`, and with only `max-replicas` set it carries
`minReplica = none`, so the backend keeps the previous value of the omitted
bound. -/
theorem c8_edit_omits_unset_bounds
    (f : NodePoolFlags) (p : PromptEnv) (env : EditNodePoolEnv)
    (er emin emax : Int) (npid : String)
    (hInt : p.interactiveEnabled = false)
    (hGet : env.getNodePoolResult =
      Except.ok { id := npid, replicas := er, autoscaling := some (emin, emax) })
    (hAuto : f.enableAutoscalingFlag = none)
    (hBuild : env.buildError = none) :
    (∀ m : Int, f.minReplicasFlag = some m → f.maxReplicasFlag = none → 0 < m →
       Effect.updateNodePoolCall
         { id := some npid
           autoscaling := some { minReplica := some m, maxReplica := none }
           replicas := none } ∈ (editNodePool f p env).2) ∧
    (∀ m : Int, f.maxReplicasFlag = some m → f.minReplicasFlag = none → 0 < m →
       Effect.updateNodePoolCall
         { id := some npid
           autoscaling := some { minReplica := none, maxReplica := some m }
           replicas := none } ∈ (editNodePool f p env).2) := by
  constructor
  · intro m hMin hMax hm
    have hnneg : ¬ (m < 0) := by omega
    simp [editNodePool, getNodePoolReplicas, interactiveGetInt, interactiveGetBool,
      hInt, hGet, hAuto, hMin, hMax, hBuild, hnneg, hm]
    cases h : env.updateError <;> simp [h]
  · intro m hMax hMin hm
    simp [editNodePool, getNodePoolReplicas, interactiveGetInt, interactiveGetBool,
      hInt, hGet, hAuto, hMin, hMax, hBuild, hm]
    cases h : env.updateError <;> simp [h]

/-- C8 witness: editing the 1..4 autoscaling pool with only `--min-replicas 3`
sends an update whose autoscaling block omits the max bound. -/
theorem c8_edit_omits_unset_bounds_witness :
    Effect.updateNodePoolCall
        { id := some "np-1"
          autoscaling := some { minReplica := some 3, maxReplica := none }
          replicas := none } ∈ (editNodePool c8Flags c8PromptOff c8EditEnv).2 :=
  (c8_edit_omits_unset_bounds c8Flags c8PromptOff c8EditEnv 2 1 4 "np-1"
      rfl rfl rfl rfl).1 3 rfl rfl (by decide)

/-- Names already collected as unknown survive one scan step. -/
theorem scanArg_unknown_mono (flags : List PFlag) (fo : Bool) (st : ScanState)
    (a : String) {n : String} (h : n ∈ st.unknownFlags) :
    n ∈ (scanArg flags fo st a).unknownFlags := by
  unfold scanArg
  by_cases hA : (strHasPrefix a "--" && !strContains a '=') = true
  · rw [if_pos hA]
    rcases e : lookupFlag flags (strDrop a 2) with _ | fl
    · simp only [e]
      split <;> simp [h]
    · simp [e, h]
  · rw [if_neg hA]
    by_cases hB : (strHasPrefix a "--" && strContains a '=') = true
    · rw [if_pos hB]
      repeat' split
      all_goals try simp [h]
      all_goals split <;> simp [h]
    · rw [if_neg hB]
      by_cases hC : (strHasPrefix a "-" && !strContains a '=') = true
      · rw [if_pos hC]
        rcases e : lookupFlag flags (strDrop a 1) with _ | fl
        · simp only [e]
          split <;> simp [h]
        · simp [e, h]
      · rw [if_neg hC]
        by_cases hD : (strHasPrefix a "-" && strContains a '=') = true
        · rw [if_pos hD]
          repeat' split
          all_goals try simp [h]
          all_goals split <;> simp [h]
        · rw [if_neg hD]
          repeat' split
          all_goals simp [h]

/-- Names already collected as unknown survive the rest of the scan. -/
theorem scanFold_unknown_mono (flags : List PFlag) (fo : Bool) :
    ∀ (argv : List String) (st : ScanState) {n : String}, n ∈ st.unknownFlags →
      n ∈ (argv.foldl (scanArg flags fo) st).unknownFlags := by
  intro argv
  induction argv with
  | nil => intro st n h; simpa using h
  | cons a rest ih =>
      intro st n h
      simpa using ih (scanArg flags fo st a) (scanArg_unknown_mono flags fo st a h)

/-- A scan step over an unknown flag argument records its name. -/
theorem scanArg_unknown_mem (flags : List PFlag) (st : ScanState) (a : String)
    (h : isUnknownFlagArg flags a = true) :
    flagNameOf a ∈ (scanArg flags true st a).unknownFlags := by
  rw [isUnknownFlagArg, Bool.and_eq_true] at h
  obtain ⟨h1, h2⟩ := h
  have hlk : lookupFlag flags (flagNameOf a) = none := Option.isNone_iff_eq_none.mp h2
  by_cases hpp : strHasPrefix a "--" = true
  · by_cases heq : strContains a '=' = true
    · rw [flagNameOf, if_pos hpp, if_pos heq] at hlk
      simp [scanArg, flagNameOf, hpp, heq, hlk]
    · rw [flagNameOf, if_pos hpp, if_neg heq] at hlk
      simp [scanArg, flagNameOf, hpp, heq, hlk]
  · by_cases heq : strContains a '=' = true
    · rw [flagNameOf, if_neg hpp, if_pos heq] at hlk
      simp [scanArg, flagNameOf, hpp, heq, h1, hlk]
    · rw [flagNameOf, if_neg hpp, if_neg heq] at hlk
      simp [scanArg, flagNameOf, hpp, heq, h1, hlk]

/-- Every unknown flag argument of the list ends up named in the scan state. -/
theorem scanFold_unknown_complete (flags : List PFlag) :
    ∀ (argv : List String) (st : ScanState) (a : String), a ∈ argv →
      isUnknownFlagArg flags a = true →
      flagNameOf a ∈ (argv.foldl (scanArg flags true) st).unknownFlags := by
  intro argv
  induction argv with
  | nil => intro st a ha; exact absurd ha (List.not_mem_nil a)
  | cons b rest ih =>
      intro st a ha hu
      rcases List.mem_cons.mp ha with rfl | ha'
      · simpa using
          scanFold_unknown_mono flags true rest (scanArg flags true st a)
            (scanArg_unknown_mem flags st a hu)
      · simpa using ih (scanArg flags true st b) a ha' hu

/-- C10: when `failOnUnknown` is set and the argument list holds at least one
unknown long or short flag, `ParseKnownFlags` returns, for every possible
`flags.Parse` behaviour, the error built from the unknown names the scan
found, before `flags.Parse` is ever consulted (so no flag value changes); and
every unknown flag of the list is named in that error. -/
theorem c10_parse_known_flags_rejects_unknown
    (parseFn : List PFlag → List String → Except String (List PFlag))
    (helpRequested : List PFlag → Bool) (flags : List PFlag) (argv : List String)
    (h : ∃ a ∈ argv, isUnknownFlagArg flags a = true) :
    ParseKnownFlags parseFn helpRequested flags argv true =
      Except.error (unknownFlagsMessage (scanKnownArgs flags true argv).unknownFlags) ∧
    ∀ a ∈ argv, isUnknownFlagArg flags a = true →
      flagNameOf a ∈ (scanKnownArgs flags true argv).unknownFlags := by
  obtain ⟨a, ha, hu⟩ := h
  have hmem : flagNameOf a ∈ (scanKnownArgs flags true argv).unknownFlags :=
    scanFold_unknown_complete flags argv _ a ha hu
  have hne : (scanKnownArgs flags true argv).unknownFlags.isEmpty = false := by
    rcases hl : (scanKnownArgs flags true argv).unknownFlags with _ | ⟨x, xs⟩
    · rw [hl] at hmem; exact absurd hmem (List.not_mem_nil _)
    · rfl
  refine ⟨?_, fun b hb hub => scanFold_unknown_complete flags argv _ b hb hub⟩
  unfold ParseKnownFlags
  simp [hne]

/-- C10 witness: at `c10Argv` the parse is rejected with the unknown flag
`--bogus` named, whatever `flags.Parse` would do. -/
theorem c10_parse_known_flags_rejects_unknown_witness :
    ParseKnownFlags (fun fs _ => Except.ok fs) (fun _ => false) c10Flags c10Argv true =
      Except.error (unknownFlagsMessage (scanKnownArgs c10Flags true c10Argv).unknownFlags) ∧
    flagNameOf "--bogus" ∈ (scanKnownArgs c10Flags true c10Argv).unknownFlags :=
  ⟨(c10_parse_known_flags_rejects_unknown (fun fs _ => Except.ok fs) (fun _ => false)
      c10Flags c10Argv ⟨"--bogus", by decide, by decide⟩).1,
   (c10_parse_known_flags_rejects_unknown (fun fs _ => Except.ok fs) (fun _ => false)
      c10Flags c10Argv ⟨"--bogus", by decide, by decide⟩).2 "--bogus" (by decide) (by decide)⟩

/-- C4: the combined missing-role detection — `FindMissingOperatorRolesForUpgrade`
followed by the per-role existence check of the upgrade loop — yields exactly
the set difference between the operator roles required by the cluster's
credential requests at the target version and the operator roles that already
exist, under the consistency assumption that a required role the cluster
already lists does exist in the cloud account. -/
theorem c4_detection_is_set_difference
    (cluster : Cluster) (version : String) (credRequests : List STSOperator)
    (existingRoles : List String)
    (hconsist : ∀ op ∈ credRequests, requiredAtVersion op version = true →
        (cluster.operatorIAMRoles.getD []).contains (GetOperatorRoleName cluster op) = true →
        existingRoles.contains (GetOperatorRoleName cluster op) = true) :
    ∀ op ∈ credRequests,
      (op ∈ detectTriggeredRoles cluster version credRequests existingRoles ↔
        requiredAtVersion op version = true ∧
          existingRoles.contains (GetOperatorRoleName cluster op) = false) := by
  intro op hop
  constructor
  · intro hmem
    rw [detectTriggeredRoles, List.mem_filter, FindMissingOperatorRolesForUpgrade,
      List.mem_filter] at hmem
    obtain ⟨⟨-, hb⟩, hc⟩ := hmem
    rw [Bool.and_eq_true] at hb
    refine ⟨hb.1, ?_⟩
    simpa using hc
  · rintro ⟨hreq, hnew⟩
    rw [detectTriggeredRoles, List.mem_filter, FindMissingOperatorRolesForUpgrade,
      List.mem_filter]
    have hnew' : GetOperatorRoleName cluster op ∉ existingRoles := by
      simpa using hnew
    have hclu : (cluster.operatorIAMRoles.getD []).contains
        (GetOperatorRoleName cluster op) = false := by
      cases hc : (cluster.operatorIAMRoles.getD []).contains (GetOperatorRoleName cluster op)
      · rfl
      · exact absurd (hconsist op hop hreq hc) (by simpa using hnew')
    refine ⟨⟨hop, ?_⟩, by simpa using hnew'⟩
    simp only [Bool.and_eq_true, hreq, true_and, Bool.not_eq_true']
    exact hclu

/-- C4 witness: at the concrete cluster and credential requests, the
image-registry request is detected exactly because it is required at 4.12.0
and its role does not exist yet. -/
theorem c4_detection_witness :
    c4OpNew ∈ detectTriggeredRoles c4Cluster "4.12.0" c4Ops c4Existing ↔
      requiredAtVersion c4OpNew "4.12.0" = true ∧
        c4Existing.contains (GetOperatorRoleName c4Cluster c4OpNew) = false :=
  c4_detection_is_set_difference c4Cluster "4.12.0" c4Ops c4Existing (by decide)
    c4OpNew (by decide)

/-- C5: whenever the installer account-role policies are reported stale, `run`
prints the remediation notice carrying the `rosa upgrade account-roles
--prefix` command and exits with code 1, having performed no remote mutating
call (no role creation, policy attachment or policy upgrade). -/
theorem c5_stale_account_roles_hard_failure
    (env : RunEnv) (m dpv : String)
    (hMode : env.modeResult = Except.ok m)
    (hDpv : env.defaultPolicyVersionResult = Except.ok dpv)
    (hVer : env.upgradeVersionFlag = "")
    (hPath : ∃ p, env.pathResult = Except.ok p)
    (hStale : env.accountRolesStaleResult = Except.ok true) :
    (run env).1 = Outcome.exited 1 ∧
    Effect.reportInfo (accountRolesRemediationMsg (effectivePrefix env)) ∈ (run env).2 ∧
    mutationFree (run env).2 = true := by
  obtain ⟨p, hp⟩ := hPath
  unfold run runVersionPhase runRolesPhase runAccountPhase
  simp only [hMode, hDpv, hVer, hp, hStale, ne_eq, not_true_eq_false, if_false,
    ite_false]
  refine ⟨by trivial, by simp, ?_⟩
  rcases hpr : env.prefixResult with pe | pp <;> simp only [hpr] <;> split <;>
    simp [mutationFree, Effect.isRemoteMutating]

/-- C5 witness: the stale-account-roles run exits 1 with the remediation
notice and no mutating call. -/
theorem c5_stale_account_roles_witness :
    (run c5Env).1 = Outcome.exited 1 ∧
    Effect.reportInfo (accountRolesRemediationMsg (effectivePrefix c5Env)) ∈ (run c5Env).2 ∧
    mutationFree (run c5Env).2 = true :=
  c5_stale_account_roles_hard_failure c5Env "auto" "4.12" rfl rfl rfl ⟨"/", rfl⟩ rfl

/-- An empty trace has no remote mutation. -/
theorem mutationFree_nil : mutationFree [] = true := rfl

/-- A trace extension has no remote mutation iff both parts have none. -/
theorem mutationFree_append (a b : List Effect) :
    mutationFree (a ++ b) = (mutationFree a && mutationFree b) := by
  simp [mutationFree, List.all_append]

/-- Prepending one effect to a trace. -/
theorem mutationFree_cons (e : Effect) (l : List Effect) :
    mutationFree (e :: l) = (!e.isRemoteMutating && mutationFree l) := by
  simp [mutationFree]

/-- The manual branch of `upgradeOperatorPolicies` performs no remote mutating
call, whatever the environment. -/
theorem upgradeOperatorPolicies_manual_mutationFree (env : RunEnv)
    (prefixName : String) (acct : Bool) (dpv : String) :
    mutationFree (upgradeOperatorPolicies ModeManual env prefixName acct dpv).2 = true := by
  rcases hg : env.generatePolicyFilesError with _ | e
  · simp [upgradeOperatorPolicies, hg, mutationFree, Effect.isRemoteMutating,
      ModeManual, ModeAuto]
    rintro x hterm hx
    rcases hx with rfl | rfl | ⟨-, rfl⟩ <;> rfl
  · simp [upgradeOperatorPolicies, hg, mutationFree, Effect.isRemoteMutating,
      ModeManual, ModeAuto]

/-- The manual branch of `createOperatorRole` performs no remote mutating
call, whatever the environment. -/
theorem createOperatorRole_manual_mutationFree (env : RunEnv) (cluster : Cluster)
    (prefixName : String) (missing : List STSOperator) (unifiedPath : String)
    (state : List String) :
    mutationFree
      (createOperatorRole ModeManual env cluster prefixName missing unifiedPath state).2
      = true := by
  rcases hm : env.missingRoleCommandsResult with e | cmds
  · simp [createOperatorRole, hm, mutationFree, Effect.isRemoteMutating,
      ModeManual, ModeAuto]
  · simp [createOperatorRole, hm, mutationFree, Effect.isRemoteMutating,
      ModeManual, ModeAuto]

/-- The missing-role loop in manual mode performs no remote mutating call. -/
theorem missingRolesLoop_manual_mutationFree (env : RunEnv) (cluster : Cluster)
    (prefixName unifiedPath : String) (missing : List STSOperator) :
    ∀ (remaining : List STSOperator) (state : List String) (created : Nat),
      mutationFree
        (missingRolesLoop ModeManual env cluster prefixName unifiedPath missing
          remaining state created).2 = true := by
  intro remaining
  induction remaining with
  | nil => intro state created; simp [missingRolesLoop, mutationFree]
  | cons op rest ih =>
    intro state created
    simp only [missingRolesLoop]
    rcases hce : env.checkRoleExistsError (GetOperatorRoleName cluster op) with _ | e
    · simp only [hce]
      cases hco : state.contains (GetOperatorRoleName cluster op)
      · simp only [hco, Bool.not_false, if_true]
        rcases hcr : createOperatorRole ModeManual env cluster prefixName missing
            unifiedPath state with ⟨res, tr⟩
        have hfree : mutationFree tr = true := by
          have h := createOperatorRole_manual_mutationFree env cluster prefixName
            missing unifiedPath state
          rw [hcr] at h
          exact h
        cases res with
        | ok state2 =>
            simp only [hcr]
            simp [mutationFree_append, hfree, ih]
        | failed e =>
            simp only [hcr]
            simp [mutationFree_append, mutationFree_cons, hfree,
              Effect.isRemoteMutating, mutationFree_nil]
        | exitedOne =>
            simp only [hcr]
            exact hfree
      · simp only [hco, Bool.not_true, if_false]
        exact ih state created
    · simp [hce, mutationFree, Effect.isRemoteMutating]

/-- The missing-role phase of `run` in manual mode performs no remote mutating
call. -/
theorem runLoopPhase_manual_mutationFree (env : RunEnv) (cluster : Cluster)
    (prefixName unifiedPath : String) (missing : List STSOperator) :
    mutationFree (runLoopPhase env ModeManual cluster prefixName unifiedPath missing).2
      = true := by
  rw [runLoopPhase]
  split
  · simp [mutationFree]
  · rcases hl : missingRolesLoop ModeManual env cluster prefixName unifiedPath missing
        missing env.existingRoles 0 with ⟨res, tr⟩
    have hfree : mutationFree tr = true := by
      have h := missingRolesLoop_manual_mutationFree env cluster prefixName unifiedPath
        missing missing env.existingRoles 0
      rw [hl] at h
      exact h
    cases res with
    | done created state =>
        simp only [hl]
        split <;> simp [mutationFree_append, hfree, mutationFree_cons,
          Effect.isRemoteMutating, mutationFree_nil]
    | returnedErr e => simp only [hl]; exact hfree
    | exitedOne => simp only [hl]; exact hfree

/-- The policy-upgrade and missing-role phases of `run` in manual mode perform
no remote mutating call. -/
theorem runPolicyPhase_manual_mutationFree (env : RunEnv) (cluster : Cluster)
    (prefixName unifiedPath : String) (policyStale : Bool) (dpv : String)
    (missing : List STSOperator) :
    mutationFree
      (runPolicyPhase env ModeManual cluster prefixName unifiedPath policyStale dpv
        missing).2 = true := by
  rw [runPolicyPhase]
  cases policyStale with
  | false =>
      simpa using runLoopPhase_manual_mutationFree env cluster prefixName unifiedPath missing
  | true =>
      simp only [if_true]
      rcases hu : upgradeOperatorPolicies ModeManual env prefixName false dpv with ⟨res, tr⟩
      have hfree : mutationFree tr = true := by
        have h := upgradeOperatorPolicies_manual_mutationFree env prefixName false dpv
        rw [hu] at h
        exact h
      cases res with
      | ok =>
          simp only [hu]
          simp [mutationFree_append, hfree,
            runLoopPhase_manual_mutationFree env cluster prefixName unifiedPath missing]
      | failed e =>
          simp only [hu]
          simp [mutationFree_append, mutationFree_cons, hfree, Effect.isRemoteMutating,
            mutationFree_nil]
      | exitedOne => simp only [hu]; exact hfree

/-- Mode selection resolving to manual makes the rest of `run` free of remote
mutating calls. -/
theorem runModeSelectPhase_manual_mutationFree (env : RunEnv) (mode0 : String)
    (cluster : Cluster) (prefixName unifiedPath : String) (policyStale : Bool)
    (dpv : String) (missing : List STSOperator)
    (h : modeResolvesManual env mode0) :
    mutationFree
      (runModeSelectPhase env mode0 cluster prefixName unifiedPath policyStale dpv
        missing).2 = true := by
  rw [runModeSelectPhase]
  rcases hpol : env.policiesResult with e | u
  · simp [hpol, mutationFree, Effect.isRemoteMutating]
  · simp only [hpol]
    rcases he : env.ocmEnvResult with e | envName
    · simp [he, mutationFree, Effect.isRemoteMutating]
    · simp only [he]
      rw [modeResolvesManual] at h
      by_cases hi : interactiveAtModeSelection env = true
      · rw [if_pos hi] at h
        rw [if_pos hi, h]
        exact runPolicyPhase_manual_mutationFree env cluster prefixName unifiedPath
          policyStale dpv missing
      · rw [if_neg hi] at h
        rw [if_neg hi, h]
        exact runPolicyPhase_manual_mutationFree env cluster prefixName unifiedPath
          policyStale dpv missing

/-- The detection phase of `run` under a manual mode resolution is free of
remote mutating calls. -/
theorem runDetectPhase_manual_mutationFree (env : RunEnv) (mode0 : String)
    (cluster : Cluster) (prefixName unifiedPath : String)
    (credRequests : List STSOperator) (policyStale : Bool) (dpv : String)
    (h : modeResolvesManual env mode0) :
    mutationFree
      (runDetectPhase env mode0 cluster prefixName unifiedPath credRequests policyStale
        dpv).2 = true := by
  rw [runDetectPhase]
  rcases hf : env.findMissingError with _ | e
  · simp only [hf]
    split <;> split <;>
      first
        | (simp [mutationFree, Effect.isRemoteMutating]; done)
        | (rw [mutationFree_cons,
             runModeSelectPhase_manual_mutationFree env mode0 cluster prefixName
               unifiedPath policyStale dpv _ h]
           rfl)
  · simp [hf, mutationFree]

/-- The credential-request phase of `run` under a manual mode resolution is
free of remote mutating calls. -/
theorem runCredPhase_manual_mutationFree (env : RunEnv) (mode0 : String)
    (cluster : Cluster) (prefixName unifiedPath : String) (dpv : String)
    (h : modeResolvesManual env mode0) :
    mutationFree (runCredPhase env mode0 cluster prefixName unifiedPath dpv).2 = true := by
  rw [runCredPhase]
  rcases hc : env.credRequestsResult with e | credRequests
  · simp [hc, mutationFree, Effect.isRemoteMutating]
  · simp only [hc]
    rcases ho : env.operatorPolicyStaleResult with e | policyStale
    · simp [ho, mutationFree, Effect.isRemoteMutating]
    · simp only [ho]
      exact runDetectPhase_manual_mutationFree env mode0 cluster prefixName unifiedPath
        credRequests policyStale dpv h

/-- The account-role gate of `run` under a manual mode resolution is free of
remote mutating calls. -/
theorem runAccountPhase_manual_mutationFree (env : RunEnv) (mode0 : String)
    (cluster : Cluster) (prefixName unifiedPath : String) (dpv : String)
    (h : modeResolvesManual env mode0) :
    mutationFree (runAccountPhase env mode0 cluster prefixName unifiedPath dpv).2
      = true := by
  rw [runAccountPhase]
  rcases ha : env.accountRolesStaleResult with e | stale
  · simp [ha, mutationFree, Effect.isRemoteMutating]
  · cases stale
    · simp only [ha]
      exact runCredPhase_manual_mutationFree env mode0 cluster prefixName unifiedPath dpv h
    · simp [ha, mutationFree, Effect.isRemoteMutating]

/-- The operator-roles and prefix checks of `run` under a manual mode
resolution are free of remote mutating calls. -/
theorem runRolesPhase_manual_mutationFree (env : RunEnv) (mode0 : String)
    (dpv : String) (h : modeResolvesManual env mode0) :
    mutationFree (runRolesPhase env mode0 dpv).2 = true := by
  rw [runRolesPhase]
  rcases hp : env.pathResult with e | unifiedPath
  · simp only [hp]
    rcases hpr : env.prefixResult with pe | pp <;> simp only [hpr] <;>
      split <;> simp [mutationFree, Effect.isRemoteMutating]
  · simp only [hp]
    rcases hpr : env.prefixResult with pe | pp <;> simp only [hpr] <;>
      rw [mutationFree_append, mutationFree_append,
        runAccountPhase_manual_mutationFree env mode0 env.cluster
          (effectivePrefix env) unifiedPath dpv h] <;>
        split <;> simp [mutationFree, Effect.isRemoteMutating]

/-- The explicit-version check of `run` under a manual mode resolution is free
of remote mutating calls. -/
theorem runVersionPhase_manual_mutationFree (env : RunEnv) (mode0 : String)
    (dpv : String) (h : modeResolvesManual env mode0) :
    mutationFree (runVersionPhase env mode0 dpv).2 = true := by
  rw [runVersionPhase]
  split
  · rcases hu : env.availableUpgradesResult with e | ups
    · simp [hu, mutationFree, Effect.isRemoteMutating]
    · simp only [hu]
      split
      · simp [mutationFree, Effect.isRemoteMutating]
      · split
        · exact runRolesPhase_manual_mutationFree env mode0 dpv h
        · simp [mutationFree, Effect.isRemoteMutating]
  · exact runRolesPhase_manual_mutationFree env mode0 dpv h

/-- C1: whenever the selected mode is manual, the whole operator-role upgrade
flow issues no remote mutating call: no role creation, no policy attachment
and no policy upgrade reach the cloud IAM API; the manual branches only
generate local policy files and print commands. -/
theorem c1_manual_mode_never_mutates (env : RunEnv) (h : selectsManual env) :
    mutationFree (run env).2 = true := by
  rw [run]
  rcases hm : env.modeResult with e | mode0
  · simp [mutationFree, Effect.isRemoteMutating]
  · simp only [hm]
    rcases hd : env.defaultPolicyVersionResult with e | dpv
    · simp [mutationFree, Effect.isRemoteMutating]
    · simp only [hd]
      apply runVersionPhase_manual_mutationFree env mode0 dpv
      rw [modeResolvesManual]
      rw [selectsManual] at h
      by_cases hi : interactiveAtModeSelection env = true
      · rw [if_pos hi] at h ⊢
        exact h
      · rw [if_neg hi] at h ⊢
        rw [hm] at h
        injection h

/-- C1 witness: with the `mode` flag set to manual, stale operator policies
and a missing role, the run performs only local file generation and prints. -/
theorem c1_manual_mode_never_mutates_witness : mutationFree (run c1Env).2 = true :=
  c1_manual_mode_never_mutates c1Env
    (by rw [selectsManual, if_neg (by decide)]; rfl)

/-- The per-role confirmation question determines the role name. -/
theorem roleCreateQuestion_inj {a b : String}
    (h : roleCreateQuestion a = roleCreateQuestion b) : a = b := by
  rw [roleCreateQuestion, roleCreateQuestion] at h
  have hd := congrArg String.data h
  rw [String.data_append, String.data_append, String.data_append,
    String.data_append] at hd
  exact String.ext (List.append_cancel_left (List.append_cancel_right hd))

/-- The creation-sequence filter keeps exactly the prompt and the `EnsureRole`
call from the segment of the matching role. -/
theorem okSegment_filter_eq (env : RunEnv) (cluster : Cluster)
    (prefixName unifiedPath : String) (op : STSOperator) :
    (okSegment env cluster prefixName unifiedPath op).filter
        (promptOrEnsure (GetOperatorRoleName cluster op)) =
      [Effect.promptConfirm (roleCreateQuestion (GetOperatorRoleName cluster op)),
       Effect.ensureRoleCall (GetOperatorRoleName cluster op)] := by
  simp [okSegment, promptOrEnsure]

/-- The creation-sequence filter drops the whole segment of a different role. -/
theorem okSegment_filter_ne (env : RunEnv) (cluster : Cluster)
    (prefixName unifiedPath : String) (op : STSOperator) (n : String)
    (hne : GetOperatorRoleName cluster op ≠ n) :
    (okSegment env cluster prefixName unifiedPath op).filter (promptOrEnsure n) = [] := by
  have hq : (roleCreateQuestion (GetOperatorRoleName cluster op) ==
      roleCreateQuestion n) = false :=
    beq_eq_false_iff_ne.mpr (fun hqe => hne (roleCreateQuestion_inj hqe))
  have hr : (GetOperatorRoleName cluster op == n) = false := beq_eq_false_iff_ne.mpr hne
  simp [okSegment, promptOrEnsure, hq, hr]

/-- A role named nowhere in the operator list leaves no creation-sequence
effects over the list's segments. -/
theorem okSegments_filter_of_not_mem (env : RunEnv) (cluster : Cluster)
    (prefixName unifiedPath : String) :
    ∀ (lst : List STSOperator) (n : String),
      n ∉ lst.map (GetOperatorRoleName cluster) →
      (okSegments env cluster prefixName unifiedPath lst).filter (promptOrEnsure n)
        = [] := by
  intro lst
  induction lst with
  | nil => intro n _; rfl
  | cons op rest ih =>
      intro n hn
      rw [List.map_cons] at hn
      rw [okSegments, List.filter_append,
        okSegment_filter_ne env cluster prefixName unifiedPath op n
          (fun he => hn (he ▸ List.mem_cons_self _ _)),
        ih n (fun hm => hn (List.mem_cons_of_mem _ hm))]
      rfl

/-- A role named exactly once in the operator list leaves exactly its prompt
and its `EnsureRole` call over the list's segments. -/
theorem okSegments_filter_of_mem (env : RunEnv) (cluster : Cluster)
    (prefixName unifiedPath : String) :
    ∀ (lst : List STSOperator) (n : String),
      (lst.map (GetOperatorRoleName cluster)).Nodup →
      n ∈ lst.map (GetOperatorRoleName cluster) →
      (okSegments env cluster prefixName unifiedPath lst).filter (promptOrEnsure n) =
        [Effect.promptConfirm (roleCreateQuestion n), Effect.ensureRoleCall n] := by
  intro lst
  induction lst with
  | nil => intro n _ hn; exact absurd hn (List.not_mem_nil n)
  | cons op rest ih =>
      intro n hnodup hn
      rw [List.map_cons] at hn hnodup
      rw [okSegments, List.filter_append]
      rcases List.mem_cons.mp hn with rfl | hn'
      · rw [okSegment_filter_eq env cluster prefixName unifiedPath op,
          okSegments_filter_of_not_mem env cluster prefixName unifiedPath rest _
            (List.Nodup.not_mem hnodup)]
        rfl
      · have hne : GetOperatorRoleName cluster op ≠ n := by
          intro he
          exact (List.Nodup.not_mem hnodup) (he ▸ hn')
        rw [okSegment_filter_ne env cluster prefixName unifiedPath op n hne,
          ih n (List.Nodup.of_cons hnodup) hn']
        rfl

/-- Membership in the set of roles after `EnsureRole` ran once. -/
theorem addRoleName_mem (state : List String) (r n : String) :
    n ∈ addRoleName state r ↔ n ∈ state ∨ n = r := by
  rw [addRoleName]
  split
  · rename_i hc
    have hr : r ∈ state := by simpa using hc
    constructor
    · exact Or.inl
    · rintro (hs | rfl)
      · exact hs
      · exact hr
  · simp

/-- Membership in the set of roles after `EnsureRole` ran over a whole list. -/
theorem addRoleNames_mem (cluster : Cluster) :
    ∀ (lst : List STSOperator) (state : List String) (n : String),
      n ∈ addRoleNames cluster lst state ↔
        n ∈ state ∨ n ∈ lst.map (GetOperatorRoleName cluster) := by
  intro lst
  induction lst with
  | nil => intro state n; simp [addRoleNames]
  | cons op rest ih =>
      intro state n
      rw [addRoleNames, ih, addRoleName_mem, List.map_cons, List.mem_cons]
      tauto

/-- With every prompt accepted and every per-role call succeeding,
`upgradeMissingOperatorRole` creates all the roles of its list, returns the
extended set of existing roles, and its trace is the concatenation of the
per-role creation segments. -/
theorem upgradeMissingOperatorRole_allOk (env : RunEnv) (cluster : Cluster)
    (prefixName unifiedPath : String)
    (hconf : ∀ r, env.confirmCreateRole r = true)
    (hdoc : ∀ r, env.policyDocError r = none)
    (hens : ∀ r, env.ensureRoleError r = none)
    (hatt : ∀ r, env.attachRolePolicyError r = none) :
    ∀ (lst : List STSOperator) (state : List String),
      upgradeMissingOperatorRole env cluster prefixName unifiedPath lst state =
        (Except.ok (addRoleNames cluster lst state),
         okSegments env cluster prefixName unifiedPath lst) := by
  intro lst
  induction lst with
  | nil => intro state; rfl
  | cons op rest ih =>
      intro state
      rw [upgradeMissingOperatorRole]
      simp only [hconf, hdoc, hens, hatt, Bool.not_true, Bool.false_eq_true,
        if_false, ite_false]
      rw [ih]
      simp [okSegments, okSegment, addRoleNames]

/-- The missing-role loop does nothing when every remaining role already
exists. -/
theorem missingRolesLoop_skip (mode : String) (env : RunEnv) (cluster : Cluster)
    (prefixName unifiedPath : String) (missing : List STSOperator)
    (hcheck : ∀ r, env.checkRoleExistsError r = none) :
    ∀ (remaining : List STSOperator) (state : List String) (created : Nat),
      (∀ o ∈ remaining, GetOperatorRoleName cluster o ∈ state) →
      missingRolesLoop mode env cluster prefixName unifiedPath missing remaining state
          created = (LoopResult.done created state, []) := by
  intro remaining
  induction remaining with
  | nil => intro state created _; rfl
  | cons op rest ih =>
      intro state created hall
      rw [missingRolesLoop]
      simp only [hcheck]
      have hm : GetOperatorRoleName cluster op ∈ state :=
        hall op (List.mem_cons_self op rest)
      have hc : state.contains (GetOperatorRoleName cluster op) = true := by
        simpa using hm
      rw [if_neg (by rw [hc]; simp)]
      exact ih state created (fun o ho => hall o (List.mem_cons_of_mem _ ho))

/-- In automatic mode, with every prompt accepted and every call succeeding,
the trace of the missing-role loop contains, for a role of the missing set
that some remaining role triggers creation for, exactly one creation sequence:
its confirmation prompt followed by its `EnsureRole` call. -/
theorem missingRolesLoop_allAccepted_filter (env : RunEnv) (cluster : Cluster)
    (prefixName unifiedPath : String) (missing : List STSOperator)
    (hconf : ∀ r, env.confirmCreateRole r = true)
    (hdoc : ∀ r, env.policyDocError r = none)
    (hens : ∀ r, env.ensureRoleError r = none)
    (hatt : ∀ r, env.attachRolePolicyError r = none)
    (hcheck : ∀ r, env.checkRoleExistsError r = none)
    (hnodup : (missing.map (GetOperatorRoleName cluster)).Nodup) :
    ∀ (remaining : List STSOperator) (state : List String) (created : Nat) (n : String),
      (∀ o ∈ remaining, o ∈ missing) →
      (∃ o ∈ remaining, GetOperatorRoleName cluster o ∉ state) →
      n ∈ missing.map (GetOperatorRoleName cluster) →
      ((missingRolesLoop ModeAuto env cluster prefixName unifiedPath missing remaining
          state created).2.filter (promptOrEnsure n)) =
        [Effect.promptConfirm (roleCreateQuestion n), Effect.ensureRoleCall n] := by
  intro remaining
  induction remaining with
  | nil =>
      rintro state created n _ ⟨o, ho, -⟩ _
      exact absurd ho (List.not_mem_nil o)
  | cons op rest ih =>
      intro state created n hsub hex hn
      rw [missingRolesLoop]
      simp only [hcheck]
      cases hc : state.contains (GetOperatorRoleName cluster op)
      · rw [if_pos (by rfl)]
        have hcr : createOperatorRole ModeAuto env cluster prefixName missing
            unifiedPath state =
            (CreateCallResult.ok (addRoleNames cluster missing state),
             okSegments env cluster prefixName unifiedPath missing ++
               [Effect.displaySpinner "Waiting for operator roles to reconcile"]) := by
          rw [createOperatorRole, if_pos rfl,
            upgradeMissingOperatorRole_allOk env cluster prefixName unifiedPath
              hconf hdoc hens hatt missing state]
        simp only [hcr]
        have hskip := missingRolesLoop_skip ModeAuto env cluster prefixName unifiedPath
          missing hcheck rest (addRoleNames cluster missing state) (created + 1)
          (fun o ho =>
            (addRoleNames_mem cluster missing state _).mpr
              (Or.inr (List.mem_map_of_mem _ (hsub o (List.mem_cons_of_mem _ ho)))))
        simp only [hskip]
        rw [List.append_nil, List.filter_append,
          okSegments_filter_of_mem env cluster prefixName unifiedPath missing n hnodup hn]
        simp [promptOrEnsure]
      · rw [if_neg (by simp)]
        refine ih state created n (fun o ho => hsub o (List.mem_cons_of_mem _ ho)) ?_ hn
        obtain ⟨o, ho, hno⟩ := hex
        rcases List.mem_cons.mp ho with rfl | ho'
        · exact absurd (by simpa using hc) hno
        · exact ⟨o, ho', hno⟩

/-- C7 counterexample: with missing roles `clu-openshift-a` and
`clu-openshift-d`, the prompt for `a` accepted and the prompt for `d`
declined, the loop performs the creation sequence for `a` twice (each
outer-loop pass for a non-existing role re-runs the creation routine over the
entire missing-role set), refuting "exactly one role-creation sequence per
missing role". -/
theorem c7_declined_prompt_repeats_creation :
    ((missingRolesLoop ModeAuto c7Env c7Cluster "mgr" "/" c7Ops c7Ops [] 0).2.count
      (Effect.ensureRoleCall "clu-openshift-a")) = 2 := by
  decide

/-- C7 (amended): in automatic mode each outer-loop pass for a non-existing
role invokes the creation routine over the entire missing-role set; when every
per-role prompt is accepted and every per-role call succeeds, each role of the
missing set that does not already exist undergoes exactly one creation
sequence — one confirmation prompt directly followed by one `EnsureRole` call;
a declined prompt skips that role in that pass but may cause already-created
roles to be prompted and ensured again in later passes, and a creation failure
still aborts the run immediately without rolling anything back. -/
theorem c7_auto_mode_single_creation_when_all_accepted (env : RunEnv)
    (cluster : Cluster) (prefixName unifiedPath : String)
    (missing : List STSOperator) (op : STSOperator)
    (hconf : ∀ r, env.confirmCreateRole r = true)
    (hdoc : ∀ r, env.policyDocError r = none)
    (hens : ∀ r, env.ensureRoleError r = none)
    (hatt : ∀ r, env.attachRolePolicyError r = none)
    (hcheck : ∀ r, env.checkRoleExistsError r = none)
    (hnodup : (missing.map (GetOperatorRoleName cluster)).Nodup)
    (hmem : op ∈ missing)
    (hnew : GetOperatorRoleName cluster op ∉ env.existingRoles) :
    ((missingRolesLoop ModeAuto env cluster prefixName unifiedPath missing missing
        env.existingRoles 0).2.filter
          (promptOrEnsure (GetOperatorRoleName cluster op))) =
      [Effect.promptConfirm (roleCreateQuestion (GetOperatorRoleName cluster op)),
       Effect.ensureRoleCall (GetOperatorRoleName cluster op)] :=
  missingRolesLoop_allAccepted_filter env cluster prefixName unifiedPath missing
    hconf hdoc hens hatt hcheck hnodup missing env.existingRoles 0
    (GetOperatorRoleName cluster op) (fun _ ho => ho) ⟨op, hmem, hnew⟩
    (List.mem_map_of_mem _ hmem)

/-- C7 witness: with one missing role, all prompts accepted and no failures,
the loop trace holds exactly one prompt-then-EnsureRole pair for it. -/
theorem c7_auto_mode_single_creation_witness :
    ((missingRolesLoop ModeAuto c7wEnv c7Cluster "mgr" "/" c7wOps c7wOps
        c7wEnv.existingRoles 0).2.filter
          (promptOrEnsure
            (GetOperatorRoleName c7Cluster
              { name := "b", ns := "openshift", minVersion := "" }))) =
      [Effect.promptConfirm
         (roleCreateQuestion
           (GetOperatorRoleName c7Cluster
             { name := "b", ns := "openshift", minVersion := "" })),
       Effect.ensureRoleCall
         (GetOperatorRoleName c7Cluster
           { name := "b", ns := "openshift", minVersion := "" })] :=
  c7_auto_mode_single_creation_when_all_accepted c7wEnv c7Cluster "mgr" "/" c7wOps
    { name := "b", ns := "openshift", minVersion := "" }
    (fun _ => rfl) (fun _ => rfl) (fun _ => rfl) (fun _ => rfl) (fun _ => rfl)
    (by decide) (by decide) (by decide)

end Rosa
